import Mathlib

/-!
Verification of the banking-transaction and support-ticket services.

The Python sources are shallowly embedded: every service function used by a
claim is translated into an executable Lean definition over explicit state
(lists standing for the in-memory stores, `Nat` standing for timestamps and
identifiers, `ℚ` standing for the float amounts and confidence scores, and
`List Char` standing for text where substring scanning happens).  Stdlib
facilities of the host language (string lowering, ISO date parsing, JSON/XML
parsing) are modelled by small explicit functions or by parameters, each
documented at its definition.
-/

set_option maxRecDepth 10000

/-! ### Text helpers (models of Python `str` operations, ASCII fragment) -/

/-- Model of Python `str.lower` on one character, restricted to ASCII:
uppercase letters are shifted by 32, everything else is unchanged. -/
def lowerChar (c : Char) : Char :=
  if 65 ≤ c.toNat ∧ c.toNat ≤ 90 then Char.ofNat (c.toNat + 32) else c

/-- Model of Python `str.upper` on one character, restricted to ASCII. -/
def upperChar (c : Char) : Char :=
  if 97 ≤ c.toNat ∧ c.toNat ≤ 122 then Char.ofNat (c.toNat - 32) else c

/-- Model of Python `str.lower` as a character-wise map. -/
def lowerL (s : List Char) : List Char := s.map lowerChar

/-- Model of Python `str.upper` as a character-wise map. -/
def upperL (s : List Char) : List Char := s.map upperChar

/-- Model of Python `str.upper` returning a `String`. -/
def upperS (s : String) : String := String.mk (upperL s.toList)

/-- Model of the Python substring test `pat in text`. -/
def infixOf (pat : List Char) : List Char → Bool
  | [] => pat.isEmpty
  | c :: t => pat.isPrefixOf (c :: t) || infixOf pat t

/-- Model of Python `str.split(sep)` for a one-character separator. -/
def splitOnChar (sep : Char) : List Char → List (List Char)
  | [] => [[]]
  | c :: t =>
    let rest := splitOnChar sep t
    if c = sep then [] :: rest
    else match rest with
      | [] => [[c]]
      | h :: hs => (c :: h) :: hs

/-- Model of Python `str.strip`: drop whitespace at both ends. -/
def stripL (s : List Char) : List Char :=
  (((s.dropWhile Char.isWhitespace).reverse).dropWhile Char.isWhitespace).reverse

/-! ### Numeric helpers (models of Python float/round operations on `ℚ`) -/

/-- Model of Python `min` on two numbers. -/
def pymin (a b : ℚ) : ℚ := if a ≤ b then a else b

/-- Model of Python `max` on two numbers. -/
def pymax (a b : ℚ) : ℚ := if a ≤ b then b else a

/-- Model of Python `round(x)`: round to the nearest integer, halves to the
even neighbour (banker's rounding), on exact rationals. -/
def pyRound (x : ℚ) : ℤ :=
  if Int.fract x < 1/2 then ⌊x⌋
  else if 1/2 < Int.fract x then ⌊x⌋ + 1
  else if ⌊x⌋ % 2 = 0 then ⌊x⌋ else ⌊x⌋ + 1

/-- Model of Python `round(x, 2)`. -/
def round2 (x : ℚ) : ℚ := (pyRound (x * 100) : ℚ) / 100

/-- A rational with at most two decimal digits (the shape every validated
transaction amount has). -/
def twoDecimal (q : ℚ) : Prop := ∃ n : ℤ, q = (n : ℚ) / 100

/-! ### Transactions (homework-1): data model -/

inductive TransactionType
  | deposit
  | withdrawal
  | transfer
deriving DecidableEq

inductive TransactionStatus
  | pending
  | completed
  | failed
deriving DecidableEq

/-- The `Transaction` pydantic model.  Amounts are embedded as exact
rationals, timestamps as abstract `Nat` instants. -/
structure Transaction where
  id : Option String
  fromAccount : Option String
  toAccount : Option String
  amount : ℚ
  currency : String
  type : TransactionType
  timestamp : Option Nat
  status : TransactionStatus
deriving DecidableEq

/-- The currency-filter skip test of `calculate_account_balance`, exactly as
the source writes it: a filter is in effect when the argument is present and
truthy (non-empty), and the stored currency is compared against the
uppercased filter. -/
def txn_currency_mismatch (t : Transaction) : Option String → Bool
  | some cur => decide (cur ≠ "") && decide (t.currency ≠ upperS cur)
  | none => false

/-- The same test phrased as the spec does: case-insensitive comparison of
the two currency strings. -/
def txn_currency_mismatch_ci (t : Transaction) : Option String → Bool
  | some cur => decide (cur ≠ "") && decide (lowerL t.currency.toList ≠ lowerL cur.toList)
  | none => false

/-- One iteration of the balance loop of
`TransactionService.calculate_account_balance`: skip on currency mismatch
(an empty filter string is falsy, hence no filter), skip non-completed
transactions, then credit/debit according to the transaction type. -/
def txn_step (account_id : String) (currency : Option String) (balance : ℚ)
    (t : Transaction) : ℚ :=
  if txn_currency_mismatch t currency then balance
  else if t.status ≠ TransactionStatus.completed then balance
  else match t.type with
    | TransactionType.deposit =>
        if t.toAccount = some account_id then balance + t.amount else balance
    | TransactionType.withdrawal =>
        if t.fromAccount = some account_id then balance - t.amount else balance
    | TransactionType.transfer =>
        let b1 := if t.fromAccount = some account_id then balance - t.amount else balance
        if t.toAccount = some account_id then b1 + t.amount else b1

/-- `TransactionService.calculate_account_balance` over the stored list. -/
def calculate_account_balance (txns : List Transaction) (account_id : String)
    (currency : Option String) : ℚ :=
  round2 (txns.foldl (txn_step account_id currency) 0)

/-- Per-transaction balance contribution as the specification describes it:
skip non-completed transactions, skip transactions whose currency does not
match the filter case-insensitively, credit deposits to the destination,
debit withdrawals from the source, and both for transfers. -/
def txn_delta (account_id : String) (currency : Option String)
    (t : Transaction) : ℚ :=
  if t.status ≠ TransactionStatus.completed then 0
  else if txn_currency_mismatch_ci t currency then 0
  else match t.type with
    | TransactionType.deposit =>
        if t.toAccount = some account_id then t.amount else 0
    | TransactionType.withdrawal =>
        if t.fromAccount = some account_id then -t.amount else 0
    | TransactionType.transfer =>
        (if t.fromAccount = some account_id then -t.amount else 0) +
        (if t.toAccount = some account_id then t.amount else 0)

/-- A currency string made of uppercase ASCII letters only — the shape every
stored transaction has, because the model validator checks membership in the
all-caps ISO 4217 allow-list and normalizes to uppercase. -/
def upperCurrency (s : String) : Prop :=
  ∀ c ∈ s.toList, 65 ≤ c.toNat ∧ c.toNat ≤ 90

/-! ### Support tickets (homework-2): data model -/

inductive TicketCategory
  | account_access
  | technical_issue
  | billing_question
  | feature_request
  | bug_report
  | other
deriving DecidableEq, Inhabited

inductive TicketPriority
  | urgent
  | high
  | medium
  | low
deriving DecidableEq, Inhabited, Fintype

inductive TicketStatus
  | new
  | in_progress
  | waiting_customer
  | resolved
  | closed
deriving DecidableEq, Inhabited

inductive TicketSource
  | web_form
  | email
  | api
  | chat
  | phone
deriving DecidableEq, Inhabited

/-- The `.value` string of a `TicketCategory` member. -/
def category_value : TicketCategory → String
  | TicketCategory.account_access => "account_access"
  | TicketCategory.technical_issue => "technical_issue"
  | TicketCategory.billing_question => "billing_question"
  | TicketCategory.feature_request => "feature_request"
  | TicketCategory.bug_report => "bug_report"
  | TicketCategory.other => "other"

/-- The `.value` string of a `TicketPriority` member. -/
def priority_value : TicketPriority → String
  | TicketPriority.urgent => "urgent"
  | TicketPriority.high => "high"
  | TicketPriority.medium => "medium"
  | TicketPriority.low => "low"

structure TicketMetadata where
  source : TicketSource
  browser : Option String
  device_type : Option String
deriving DecidableEq

/-- The full `Ticket` model.  UUIDs are embedded as `Nat` identifiers and
datetimes as `Nat` instants. -/
structure Ticket where
  id : Nat
  subject : String
  description : String
  customer_id : String
  customer_email : String
  customer_name : String
  category : TicketCategory
  priority : TicketPriority
  tags : List String
  metadata : TicketMetadata
  status : TicketStatus
  created_at : Nat
  updated_at : Nat
  resolved_at : Option Nat
  assigned_to : Option String
deriving DecidableEq

structure TicketCreate where
  subject : String
  description : String
  customer_id : String
  customer_email : String
  customer_name : String
  category : TicketCategory
  priority : TicketPriority
  tags : List String
  metadata : TicketMetadata
deriving DecidableEq

/-- The `TicketUpdate` partial-update model: `none` stands for a field that
is absent from the PATCH body. -/
structure TicketUpdate where
  subject : Option String
  description : Option String
  customer_email : Option String
  customer_name : Option String
  category : Option TicketCategory
  priority : Option TicketPriority
  status : Option TicketStatus
  tags : Option (List String)
  assigned_to : Option String
deriving DecidableEq

structure ClassificationResult where
  ticket_id : Nat
  suggested_category : TicketCategory
  suggested_priority : TicketPriority
  confidence : ℚ
  reasoning : String
  keywords_found : List String
deriving DecidableEq

/-! ### Classification engine -/

/-- The `CATEGORY_KEYWORDS` table, in declaration order (Python dicts
iterate in insertion order). -/
def CATEGORY_KEYWORDS : List (TicketCategory × List String) :=
  [(TicketCategory.account_access,
    ["login", "password", "access denied", "locked out", "sign in",
     "authentication", "2fa", "two-factor", "can\x27t log in", "reset password",
     "forgot password", "account locked", "credentials"]),
   (TicketCategory.billing_question,
    ["invoice", "payment", "charge", "refund", "subscription", "price",
     "billing", "cost", "fee", "paid", "credit card", "receipt", "transaction"]),
   (TicketCategory.feature_request,
    ["feature", "suggestion", "would be nice", "improve", "enhancement",
     "wish list", "add", "could you", "please add", "request", "new feature"]),
   (TicketCategory.bug_report,
    ["bug", "defect", "reproduce", "steps to reproduce", "unexpected behavior",
     "incorrect result", "regression", "broken", "not working as expected",
     "should work", "supposed to"]),
   (TicketCategory.technical_issue,
    ["error", "crash", "not working", "broken", "failed", "timeout",
     "slow", "unresponsive", "loading", "performance", "doesn\x27t work",
     "won\x27t start", "stopped working"])]

/-- The `PRIORITY_KEYWORDS` table (`medium` has no keyword list and is the
default). -/
def PRIORITY_KEYWORDS : TicketPriority → List String
  | TicketPriority.urgent =>
    ["can\x27t access", "critical", "production down", "security", "emergency",
     "data loss", "urgent", "immediately", "asap", "right now", "down",
     "outage", "breach"]
  | TicketPriority.high =>
    ["important", "blocking", "asap", "urgent need", "high priority",
     "can\x27t work", "blocker", "soon", "quickly"]
  | TicketPriority.low =>
    ["minor", "cosmetic", "suggestion", "nice to have", "when you get a chance",
     "low priority", "whenever", "not urgent", "eventually"]
  | TicketPriority.medium => []

/-- `ClassificationService._find_keywords`: the keywords whose lowercased
form occurs in the lowercased text, in table order. -/
def find_keywords (text : String) (keywords : List String) : List String :=
  let text_lower := lowerL text.toList
  keywords.filter (fun kw => infixOf (lowerL kw.toList) text_lower)

/-- The combined text blob `f"{ticket.subject} {ticket.description}"`. -/
def combined_text (t : Ticket) : String := t.subject ++ " " ++ t.description

/-- The per-category match dictionary of `_classify_category`, as an
association list in table order: only categories with a non-empty found
list appear. -/
def category_matches (t : Ticket) : List (TicketCategory × List String) :=
  CATEGORY_KEYWORDS.filterMap (fun p =>
    let found := find_keywords (combined_text t) p.2
    if found.isEmpty then none else some (p.1, found))

/-- Stable insertion into a list sorted descending by matched-keyword
count. -/
def insertDesc (x : TicketCategory × List String) :
    List (TicketCategory × List String) → List (TicketCategory × List String)
  | [] => [x]
  | y :: ys => if y.2.length ≤ x.2.length then x :: y :: ys else y :: insertDesc x ys

/-- Model of `sorted(matches.items(), key=len, reverse=True)`: a stable
descending sort by matched-keyword count. -/
def sortDesc : List (TicketCategory × List String) → List (TicketCategory × List String)
  | [] => []
  | x :: xs => insertDesc x (sortDesc xs)

/-- The reproduction-specific disambiguation keywords. -/
def bug_specific : List String :=
  ["reproduce", "steps to reproduce", "regression", "unexpected behavior"]

/-- `ClassificationService._classify_category`. -/
def classify_category (t : Ticket) : TicketCategory × ℚ × List String :=
  let combined := combined_text t
  match category_matches t with
  | [] => (TicketCategory.other, 3/10, [])
  | [m] => (m.1, pymin 1 (6/10 + (m.2.length : ℚ) / 10), m.2)
  | m1 :: m2 :: rest =>
    let ms := m1 :: m2 :: rest
    let sorted_matches := sortDesc ms
    let has_bug_specific :=
      bug_specific.any (fun kw => infixOf kw.toList (lowerL combined.toList))
    if (ms.any (fun p => decide (p.1 = TicketCategory.bug_report))) && has_bug_specific then
      (TicketCategory.bug_report, 8/10, (ms.lookup TicketCategory.bug_report).getD [])
    else
      let best := sorted_matches.headI
      let confidence :=
        pymin 1 (6/10 + (best.2.length : ℚ) / 10) - ((ms.length : ℚ) - 1) / 10
      (best.1, pymax (3/10) confidence, best.2)

/-- `ClassificationService._classify_priority`: scan urgent, then high,
then low; first non-empty match list wins; default medium. -/
def classify_priority (t : Ticket) : TicketPriority × List String :=
  let combined := combined_text t
  let urgent_found := find_keywords combined (PRIORITY_KEYWORDS TicketPriority.urgent)
  if urgent_found ≠ [] then (TicketPriority.urgent, urgent_found)
  else
    let high_found := find_keywords combined (PRIORITY_KEYWORDS TicketPriority.high)
    if high_found ≠ [] then (TicketPriority.high, high_found)
    else
      let low_found := find_keywords combined (PRIORITY_KEYWORDS TicketPriority.low)
      if low_found ≠ [] then (TicketPriority.low, low_found)
      else (TicketPriority.medium, [])

/-- `ClassificationService.classify_ticket`. -/
def classify_ticket (t : Ticket) : ClassificationResult :=
  let c := classify_category t
  let p := classify_priority t
  let part1 :=
    if c.2.2 ≠ [] then
      ("Category \x27" ++ category_value c.1 ++ "\x27 suggested based on keywords: ")
        ++ String.intercalate (", ") (c.2.2.take 3)
    else ("No specific keywords found, defaulting to \x27" ++ category_value c.1 ++ "\x27")
  let part2 :=
    if p.2 ≠ [] then
      ("Priority \x27" ++ priority_value p.1 ++ "\x27 suggested based on keywords: ")
        ++ String.intercalate (", ") (p.2.take 3)
    else ("No priority keywords found, defaulting to \x27" ++ priority_value p.1 ++ "\x27")
  { ticket_id := t.id
    suggested_category := c.1
    suggested_priority := p.1
    confidence := c.2.1
    reasoning := part1 ++ ". " ++ part2
    keywords_found := c.2.2 ++ p.2 }

/-! ### Concrete tickets used by the witnesses -/

/-- A ticket matching both `bug_report` and `technical_issue`, with a
reproduction-specific keyword. -/
def wticket_bug : Ticket :=
  { id := 1, subject := "Bug in checkout",
    description := "I can reproduce the error every time",
    customer_id := "c1", customer_email := "a@example.com", customer_name := "Ann",
    category := TicketCategory.other, priority := TicketPriority.medium,
    tags := [], metadata := ⟨TicketSource.api, none, none⟩,
    status := TicketStatus.new, created_at := 0, updated_at := 0,
    resolved_at := none, assigned_to := none }

/-- A ticket whose text matches no category and no priority keyword. -/
def wticket_nomatch : Ticket :=
  { id := 2, subject := "zz",
    description := "qq qq qq qq",
    customer_id := "c2", customer_email := "b@example.com", customer_name := "Bo",
    category := TicketCategory.other, priority := TicketPriority.medium,
    tags := [], metadata := ⟨TicketSource.api, none, none⟩,
    status := TicketStatus.new, created_at := 0, updated_at := 0,
    resolved_at := none, assigned_to := none }

/-- A ticket matching exactly one category (`account_access`). -/
def wticket_single : Ticket :=
  { id := 3, subject := "zz",
    description := "my password here okay",
    customer_id := "c3", customer_email := "c@example.com", customer_name := "Cy",
    category := TicketCategory.other, priority := TicketPriority.medium,
    tags := [], metadata := ⟨TicketSource.api, none, none⟩,
    status := TicketStatus.new, created_at := 0, updated_at := 0,
    resolved_at := none, assigned_to := none }

/-- A ticket whose description names a production outage. -/
def wticket_urgent : Ticket :=
  { id := 4, subject := "Help",
    description := "production down and we can\x27t access the site",
    customer_id := "c4", customer_email := "d@example.com", customer_name := "Di",
    tags := [], metadata := ⟨TicketSource.api, none, none⟩,
    category := TicketCategory.other, priority := TicketPriority.medium,
    status := TicketStatus.new, created_at := 0, updated_at := 0,
    resolved_at := none, assigned_to := none }

/-- `wticket_bug` with every field outside subject/description changed. -/
def wticket_bug2 : Ticket :=
  { id := 99, subject := wticket_bug.subject,
    description := wticket_bug.description,
    customer_id := "other", customer_email := "z@example.com",
    customer_name := "Zed",
    category := TicketCategory.billing_question, priority := TicketPriority.low,
    tags := ["x"], metadata := ⟨TicketSource.phone, some ("firefox"), none⟩,
    status := TicketStatus.closed, created_at := 7, updated_at := 9,
    resolved_at := some 11, assigned_to := some ("agent") }

/-! ### Ticket service (in-memory store) -/

/-- The in-memory `Dict[UUID, Ticket]` in insertion order, with the
identifier source of `uuid4()` modelled as a counter that never repays
spent identifiers (uuid4 values never repeat). -/
structure TicketServiceState where
  nextId : Nat
  store : List (Nat × Ticket)
deriving DecidableEq

/-- Well-formedness: every stored key was produced by the counter. -/
def wf_state (s : TicketServiceState) : Prop :=
  ∀ k ∈ s.store.map Prod.fst, k < s.nextId

/-- `TicketService.create_ticket`: build the ticket with a fresh id, status
new, both timestamps set to now and no resolution timestamp, then insert. -/
def create_ticket (s : TicketServiceState) (d : TicketCreate) (now : Nat) :
    Ticket × TicketServiceState :=
  let ticket : Ticket :=
    { id := s.nextId
      subject := d.subject
      description := d.description
      customer_id := d.customer_id
      customer_email := d.customer_email
      customer_name := d.customer_name
      category := d.category
      priority := d.priority
      tags := d.tags
      metadata := d.metadata
      status := TicketStatus.new
      created_at := now
      updated_at := now
      resolved_at := none
      assigned_to := none }
  (ticket, ⟨s.nextId + 1, s.store ++ [(ticket.id, ticket)]⟩)

/-- `TicketService.get_ticket`. -/
def get_ticket (s : TicketServiceState) (i : Nat) : Option Ticket :=
  s.store.lookup i

/-- The `setattr` loop of `update_ticket`: overwrite exactly the fields
present in the partial update. -/
def apply_update (t : Ticket) (u : TicketUpdate) : Ticket :=
  { t with
    subject := u.subject.getD t.subject
    description := u.description.getD t.description
    customer_email := u.customer_email.getD t.customer_email
    customer_name := u.customer_name.getD t.customer_name
    category := u.category.getD t.category
    priority := u.priority.getD t.priority
    status := u.status.getD t.status
    tags := u.tags.getD t.tags
    assigned_to := match u.assigned_to with
      | some a => some a
      | none => t.assigned_to }

/-- The ticket produced by a successful `update_ticket`: apply the partial,
refresh `updated_at`, and set `resolved_at` when the update carries status
resolved and no resolution timestamp is present yet. -/
def update_result (t : Ticket) (u : TicketUpdate) (now : Nat) : Ticket :=
  let t1 := apply_update t u
  let t2 := { t1 with updated_at := now }
  if u.status = some TicketStatus.resolved ∧ t2.resolved_at = none
    then { t2 with resolved_at := some now } else t2

/-- `TicketService.update_ticket`: absent id gives `none`; otherwise store
and return the updated ticket. -/
def update_ticket (s : TicketServiceState) (i : Nat) (u : TicketUpdate) (now : Nat) :
    Option Ticket × TicketServiceState :=
  match s.store.lookup i with
  | none => (none, s)
  | some t =>
    (some (update_result t u now),
      ⟨s.nextId, s.store.map (fun p => if p.1 = i then (i, update_result t u now) else p)⟩)

/-- `TicketService.delete_ticket`. -/
def delete_ticket (s : TicketServiceState) (i : Nat) : Bool × TicketServiceState :=
  if (s.store.lookup i).isSome then
    (true, ⟨s.nextId, s.store.filter (fun p => p.1 != i)⟩)
  else (false, s)

/-- The updated ticket as the specification describes it: only the fields
present in the partial change, the last-update timestamp refreshes, and the
resolution timestamp is set exactly on the first transition to resolved. -/
def updated_spec (t : Ticket) (u : TicketUpdate) (now : Nat) : Ticket :=
  { id := t.id
    subject := u.subject.getD t.subject
    description := u.description.getD t.description
    customer_id := t.customer_id
    customer_email := u.customer_email.getD t.customer_email
    customer_name := u.customer_name.getD t.customer_name
    category := u.category.getD t.category
    priority := u.priority.getD t.priority
    tags := u.tags.getD t.tags
    metadata := t.metadata
    status := u.status.getD t.status
    created_at := t.created_at
    updated_at := now
    resolved_at := if u.status = some TicketStatus.resolved ∧ t.resolved_at = none
      then some now else t.resolved_at
    assigned_to := match u.assigned_to with
      | some a => some a
      | none => t.assigned_to }

/-- One store operation together with its wall-clock instant. -/
inductive TicketOp
  | create (d : TicketCreate) (now : Nat)
  | update (i : Nat) (u : TicketUpdate) (now : Nat)
  | delete (i : Nat)

/-- Apply one operation to the service state. -/
def apply_op (s : TicketServiceState) : TicketOp → TicketServiceState
  | TicketOp.create d now => (create_ticket s d now).2
  | TicketOp.update i u now => (update_ticket s i u now).2
  | TicketOp.delete i => (delete_ticket s i).2

/-- Run a sequence of store operations. -/
def run_ops (s : TicketServiceState) (ops : List TicketOp) : TicketServiceState :=
  ops.foldl apply_op s

/-- A stored ticket that already carries a resolution timestamp. -/
def wticket_stored : Ticket :=
  { id := 1, subject := "Printer",
    description := "The printer is broken",
    customer_id := "c9", customer_email := "e@example.com", customer_name := "Eve",
    category := TicketCategory.technical_issue, priority := TicketPriority.medium,
    tags := [], metadata := ⟨TicketSource.web_form, none, none⟩,
    status := TicketStatus.in_progress, created_at := 3, updated_at := 4,
    resolved_at := none, assigned_to := none }

/-- A one-ticket service state used by the witnesses. -/
def wstate : TicketServiceState := ⟨2, [(1, wticket_stored)]⟩

/-- A partial update that only sets status resolved. -/
def wupdate_resolve : TicketUpdate :=
  { subject := none, description := none, customer_email := none,
    customer_name := none, category := none, priority := none,
    status := some TicketStatus.resolved, tags := none, assigned_to := none }

/-! ### Transaction list filters (homework-1 helpers) -/

/-- Model of Python `str.lower` returning a `String`. -/
def lowerS (s : String) : String := String.mk (lowerL s.toList)

/-- Model of the `TransactionType(value)` enum constructor: the matching
member, or `none` where Python raises `ValueError`. -/
def parse_transaction_type (s : String) : Option TransactionType :=
  if s = "deposit" then some TransactionType.deposit
  else if s = "withdrawal" then some TransactionType.withdrawal
  else if s = "transfer" then some TransactionType.transfer
  else none

/-- `helpers.filter_by_account`: a falsy (empty) account id means no
filtering; otherwise keep transactions where the account is source or
destination. -/
def filter_by_account (txns : List Transaction) (account_id : String) :
    List Transaction :=
  if account_id = "" then txns
  else txns.filter (fun t =>
    decide (t.fromAccount = some account_id) || decide (t.toAccount = some account_id))

/-- `helpers.filter_by_type`: a falsy type string means no filtering; a
string that is not a `TransactionType` member yields the empty list. -/
def filter_by_type (txns : List Transaction) (transaction_type : String) :
    List Transaction :=
  if transaction_type = "" then txns
  else match parse_transaction_type (lowerS transaction_type) with
    | some ft => txns.filter (fun t => decide (t.type = ft))
    | none => []

/-- Model of the `from_date.replace("Z", "+00:00")` preprocessing. -/
def replaceZ (s : String) : String :=
  String.mk (s.toList.flatMap (fun c => if c = 'Z' then ("+00:00").toList else [c]))

/-- The `if from_date:` block of `helpers.filter_by_date_range`: a falsy
bound or an unparseable bound (the `except` arm does `pass`) leaves the
list unchanged. -/
def filter_from (parse : String → Option Nat) (txns : List Transaction) :
    Option String → List Transaction
  | some fd =>
    if fd = "" then txns
    else match parse (replaceZ fd) with
      | some fdt => txns.filter (fun t => match t.timestamp with
          | some ts => decide (fdt ≤ ts)
          | none => false)
      | none => txns
  | none => txns

/-- The `if to_date:` block of `helpers.filter_by_date_range`. -/
def filter_to (parse : String → Option Nat) (txns : List Transaction) :
    Option String → List Transaction
  | some td =>
    if td = "" then txns
    else match parse (replaceZ td) with
      | some tdt => txns.filter (fun t => match t.timestamp with
          | some ts => decide (ts ≤ tdt)
          | none => false)
      | none => txns
  | none => txns

/-- `helpers.filter_by_date_range`, parameterized over the host-language
ISO parser (`datetime.fromisoformat`), modelled as returning `none` exactly
on the strings the Python parser rejects: the two bound filters run in
sequence. -/
def filter_by_date_range (parse : String → Option Nat) (txns : List Transaction)
    (from_date to_date : Option String) : List Transaction :=
  filter_to parse (filter_from parse txns from_date) to_date

/-- The lower-bound test as a predicate of the transaction alone. -/
def date_from_pass (parse : String → Option Nat) (fd : Option String)
    (t : Transaction) : Prop :=
  match fd with
  | some f => f ≠ "" → (match parse (replaceZ f) with
      | some n => ∃ ts, t.timestamp = some ts ∧ n ≤ ts
      | none => True)
  | none => True

/-- The upper-bound test as a predicate of the transaction alone. -/
def date_to_pass (parse : String → Option Nat) (td : Option String)
    (t : Transaction) : Prop :=
  match td with
  | some f => f ≠ "" → (match parse (replaceZ f) with
      | some n => ∃ ts, t.timestamp = some ts ∧ ts ≤ n
      | none => True)
  | none => True

/-- Truthiness of an optional query string. -/
def truthyOpt : Option String → Bool
  | some s => decide (s ≠ "")
  | none => false

/-- `helpers.apply_filters`: account, then type, then date range, in
sequence. -/
def apply_filters (parse : String → Option Nat) (txns : List Transaction)
    (account_id transaction_type from_date to_date : Option String) :
    List Transaction :=
  let r1 := match account_id with
    | some a => if a = "" then txns else filter_by_account txns a
    | none => txns
  let r2 := match transaction_type with
    | some ty => if ty = "" then r1 else filter_by_type r1 ty
    | none => r1
  if truthyOpt from_date || truthyOpt to_date then
    filter_by_date_range parse r2 from_date to_date
  else r2

/-- The numeric value of an ASCII digit. -/
def digitVal (c : Char) : Nat := c.toNat - 48

/-- Modelled from the spec: the host-language ISO parser
`datetime.fromisoformat` (standard-library code outside this repository),
restricted to the plain `YYYY-MM-DD` date form that the spec's examples
use; the date is encoded as the number y·10000 + m·100 + d, which is
strictly monotone in the date; every other string is rejected (`none`
standing for the `ValueError` the Python call raises). -/
def fromisoformat (s : String) : Option Nat :=
  match s.toList with
  | [y1, y2, y3, y4, h1, m1, m2, h2, d1, d2] =>
    if y1.isDigit && y2.isDigit && y3.isDigit && y4.isDigit &&
       decide (h1 = '-') && m1.isDigit && m2.isDigit && decide (h2 = '-') &&
       d1.isDigit && d2.isDigit &&
       decide (1 ≤ 10 * digitVal m1 + digitVal m2) &&
       decide (10 * digitVal m1 + digitVal m2 ≤ 12) &&
       decide (1 ≤ 10 * digitVal d1 + digitVal d2) &&
       decide (10 * digitVal d1 + digitVal d2 ≤ 31)
    then some ((1000 * digitVal y1 + 100 * digitVal y2 + 10 * digitVal y3 + digitVal y4)
        * 10000 + (10 * digitVal m1 + digitVal m2) * 100 + (10 * digitVal d1 + digitVal d2))
    else none
  | _ => none

/-- A concrete transaction used by the C7 counterexample. -/
def wtxn : Transaction :=
  ⟨none, none, some ("ACC-AAAAA"), 10, "USD", TransactionType.deposit,
    some 20240101, TransactionStatus.completed⟩

/-! ### Import pipeline (homework-2) -/

/-- The value a row's `tags` key can hold: JSON rows carry an array, CSV
rows a comma-separated string (the Python dicts are dynamically typed; the
validator and the CSV row parser distinguish the two shapes). -/
inductive TagsVal
  | asList (tags : List String)
  | asStr (raw : String)
deriving DecidableEq

/-- A metadata sub-dict of a candidate row. -/
structure MetaDict where
  source : Option String
  browser : Option String
  device_type : Option String
deriving DecidableEq

/-- One candidate row: the canonical (nested-metadata) shape plus the flat
CSV fields; `none` stands for a key that is absent or null (collapsed, as
the validator treats them alike). -/
structure RowData where
  customer_id : Option String
  customer_email : Option String
  customer_name : Option String
  subject : Option String
  description : Option String
  category : Option String
  priority : Option String
  tags : Option TagsVal
  metadata : Option MetaDict
  source : Option String
  browser : Option String
  device_type : Option String
deriving DecidableEq

/-- The extra characters the local part of the email regex accepts besides
letters and digits. -/
def emailLocalExtra : List Char :=
  ['.', '!', '#', '$', '%', '&', '\x27', '*', '+', '/', '=', '?', '^', '_',
   '\x60', '\x7b', '|', '\x7d', '~', '-']

def isLocalChar (c : Char) : Bool :=
  c.isAlpha || c.isDigit || emailLocalExtra.contains c

/-- One domain label of the email regex: starts and ends alphanumeric,
hyphens allowed inside, at most 63 characters. -/
def validLabel : List Char → Bool
  | [] => false
  | c :: cs =>
    c.isAlphanum && decide ((c :: cs).length ≤ 63) &&
    (match (c :: cs).getLast? with
      | some d => d.isAlphanum
      | none => false) &&
    ((c :: cs).all (fun d => d.isAlphanum || decide (d = '-')))

/-- The simplified RFC 5322 email regex of `ticket_validator.EMAIL_REGEX`
as a checker: one `@`, a non-empty local part over the allowed character
class, and a dot-separated sequence of valid labels. -/
def email_regex_match (s : String) : Bool :=
  match splitOnChar '@' s.toList with
  | [loc, domain] =>
    decide (loc ≠ []) && loc.all isLocalChar &&
    (let labels := splitOnChar '.' domain
     decide (labels ≠ []) && labels.all validLabel)
  | _ => false

/-- `ticket_validator.validate_email`. -/
def validate_email (email : String) : Bool × String :=
  if email = "" then (false, ("Email is required"))
  else if 254 < email.toList.length then
    (false, ("Email address too long (max 254 characters)"))
  else if email_regex_match email = false then (false, ("Invalid email format"))
  else (true, (""))

/-- `ticket_validator.validate_subject`. -/
def validate_subject (subject : String) : Bool × String :=
  if subject = "" then (false, ("Subject is required"))
  else if subject.toList.length < 1 then (false, ("Subject must be at least 1 character"))
  else if 200 < subject.toList.length then
    (false, ("Subject must not exceed 200 characters"))
  else (true, (""))

/-- `ticket_validator.validate_description`. -/
def validate_description (description : String) : Bool × String :=
  if description = "" then (false, ("Description is required"))
  else if description.toList.length < 10 then
    (false, ("Description must be at least 10 characters"))
  else if 2000 < description.toList.length then
    (false, ("Description must not exceed 2000 characters"))
  else (true, (""))

def categoryValues : List String :=
  ["account_access", "technical_issue", "billing_question", "feature_request",
   "bug_report", "other"]

def priorityValues : List String := ["urgent", "high", "medium", "low"]

def sourceValues : List String := ["web_form", "email", "api", "chat", "phone"]

/-- `ticket_validator.validate_category`. -/
def validate_category (category : String) : Bool × String :=
  if categoryValues.contains category then (true, (""))
  else (false, ("Invalid category"))

/-- `ticket_validator.validate_priority`. -/
def validate_priority (priority : String) : Bool × String :=
  if priorityValues.contains priority then (true, (""))
  else (false, ("Invalid priority"))

/-- `ticket_validator.validate_tags`: the value must be an array of
non-blank strings. -/
def validate_tags (tv : TagsVal) : Bool × String :=
  match tv with
  | TagsVal.asStr _ => (false, ("Tags must be an array"))
  | TagsVal.asList tags =>
    if tags.all (fun tag => decide (stripL tag.toList ≠ [])) then (true, (""))
    else (false, ("Tag cannot be empty"))

/-- `ticket_validator.validate_metadata`. -/
def validate_metadata (m : MetaDict) : Bool × String :=
  match m.source with
  | none => (false, ("Metadata must include source field"))
  | some src =>
    if (sourceValues.contains src) = false then (false, ("Invalid source"))
    else match m.device_type with
      | some dt =>
        if (["desktop", "mobile", "tablet"].contains dt) = false then
          (false, ("device_type must be desktop, mobile, or tablet"))
        else (true, (""))
      | none => (true, (""))

/-- `ticket_validator.validate_ticket_data`: run every field validator and
collect all (field, message) failures, required fields first. -/
def validate_ticket_data (d : RowData) : List (String × String) :=
  (if d.subject.isNone then [(("subject"), ("subject is required"))] else []) ++
  (if d.description.isNone then [(("description"), ("description is required"))] else []) ++
  (if d.customer_id.isNone then [(("customer_id"), ("customer_id is required"))] else []) ++
  (if d.customer_email.isNone then
    [(("customer_email"), ("customer_email is required"))] else []) ++
  (if d.customer_name.isNone then
    [(("customer_name"), ("customer_name is required"))] else []) ++
  (if d.category.isNone then [(("category"), ("category is required"))] else []) ++
  (if d.metadata.isNone then [(("metadata"), ("metadata is required"))] else []) ++
  (match d.subject with
    | some su => if (validate_subject su).1 then [] else [(("subject"), (validate_subject su).2)]
    | none => []) ++
  (match d.description with
    | some de => if (validate_description de).1 then []
      else [(("description"), (validate_description de).2)]
    | none => []) ++
  (match d.customer_email with
    | some em => if (validate_email em).1 then []
      else [(("customer_email"), (validate_email em).2)]
    | none => []) ++
  (match d.category with
    | some c => if (validate_category c).1 then [] else [(("category"), (validate_category c).2)]
    | none => []) ++
  (match d.priority with
    | some p => if (validate_priority p).1 then [] else [(("priority"), (validate_priority p).2)]
    | none => []) ++
  (match d.tags with
    | some tv => if (validate_tags tv).1 then [] else [(("tags"), (validate_tags tv).2)]
    | none => []) ++
  (match d.metadata with
    | some m => if (validate_metadata m).1 then [] else [(("metadata"), (validate_metadata m).2)]
    | none => [])

/-- `ImportService._parse_csv_row`: convert a flat row to the canonical
shape; `none` stands for the `AttributeError` Python raises when the tags
value is not a string (caught by the row loop as an unexpected error). -/
def parse_csv_row (row : RowData) : Option RowData :=
  match row.tags with
  | some (TagsVal.asList _) => none
  | _ =>
    let tags2 : List String := match row.tags with
      | some (TagsVal.asStr raw) =>
        if raw = "" then []
        else ((splitOnChar ',' raw.toList).map stripL).filterMap
          (fun cs => if cs = [] then none else some (String.mk cs))
      | _ => []
    some { customer_id := row.customer_id
           customer_email := row.customer_email
           customer_name := row.customer_name
           subject := row.subject
           description := row.description
           category := row.category
           priority := some (row.priority.getD ("medium"))
           tags := some (TagsVal.asList tags2)
           metadata := some
             { source := some (row.source.getD ("api"))
               browser := match row.browser with
                 | some b => if b = "" then none else some b
                 | none => none
               device_type := match row.device_type with
                 | some dt => if dt = "" then none else some dt
                 | none => none }
           source := none
           browser := none
           device_type := none }

/-- The `if "metadata" not in row` normalization step of the row loop. -/
def normalize_row (row : RowData) : Option RowData :=
  if row.metadata.isNone then parse_csv_row row else some row

def parse_category_value (s : String) : TicketCategory :=
  if s = "account_access" then TicketCategory.account_access
  else if s = "technical_issue" then TicketCategory.technical_issue
  else if s = "billing_question" then TicketCategory.billing_question
  else if s = "feature_request" then TicketCategory.feature_request
  else if s = "bug_report" then TicketCategory.bug_report
  else TicketCategory.other

def parse_priority_value (s : String) : TicketPriority :=
  if s = "urgent" then TicketPriority.urgent
  else if s = "high" then TicketPriority.high
  else if s = "low" then TicketPriority.low
  else TicketPriority.medium

def parse_source_value (s : String) : TicketSource :=
  if s = "web_form" then TicketSource.web_form
  else if s = "email" then TicketSource.email
  else if s = "chat" then TicketSource.chat
  else if s = "phone" then TicketSource.phone
  else TicketSource.api

/-- Build the `TicketCreate` from a validated row (the enum coercions are
total here because validation has already checked membership). -/
def row_to_create (d : RowData) : TicketCreate :=
  { subject := d.subject.getD ("")
    description := d.description.getD ("")
    customer_id := d.customer_id.getD ("")
    customer_email := d.customer_email.getD ("")
    customer_name := d.customer_name.getD ("")
    category := parse_category_value (d.category.getD (""))
    priority := parse_priority_value (d.priority.getD ("medium"))
    tags := match d.tags with
      | some (TagsVal.asList l) => l
      | _ => []
    metadata := match d.metadata with
      | some m => ⟨parse_source_value (m.source.getD ("api")), m.browser, m.device_type⟩
      | none => ⟨TicketSource.api, none, none⟩ }

structure ImportError where
  row : Nat
  errors : List String
deriving DecidableEq

structure ImportResult where
  total : Nat
  success_count : Nat
  error_count : Nat
  errors : List ImportError
  imported_ids : List Nat
deriving DecidableEq

/-- The row loop of `ImportService._process_rows`, 1-indexed.  The
`constructFails` oracle models the `except` arm around record construction
and creation (e.g. a pydantic coercion that rejects a value the custom
validators accepted): any such failure is one generic row error.  Returns
(success_count, error_count, errors, imported_ids) and the final store. -/
def process_rows_go (constructFails : RowData → Bool) (now : Nat) :
    List RowData → Nat → TicketServiceState →
      (Nat × Nat × List ImportError × List Nat) × TicketServiceState
  | [], _, st => ((0, 0, [], []), st)
  | row :: rows, i, st =>
    match normalize_row row with
    | none =>
      let rec1 := process_rows_go constructFails now rows (i + 1) st
      ((rec1.1.1, rec1.1.2.1 + 1,
        ⟨i + 1, [("Unexpected error")]⟩ :: rec1.1.2.2.1, rec1.1.2.2.2), rec1.2)
    | some td =>
      if validate_ticket_data td ≠ [] then
        let rec1 := process_rows_go constructFails now rows (i + 1) st
        ((rec1.1.1, rec1.1.2.1 + 1,
          ⟨i + 1, (validate_ticket_data td).map (fun e => e.1 ++ ": " ++ e.2)⟩
            :: rec1.1.2.2.1,
          rec1.1.2.2.2), rec1.2)
      else if constructFails td then
        let rec1 := process_rows_go constructFails now rows (i + 1) st
        ((rec1.1.1, rec1.1.2.1 + 1,
          ⟨i + 1, [("Unexpected error")]⟩ :: rec1.1.2.2.1, rec1.1.2.2.2), rec1.2)
      else
        let st2 := (create_ticket st (row_to_create td) now).2
        let rec1 := process_rows_go constructFails now rows (i + 1) st2
        ((rec1.1.1 + 1, rec1.1.2.1, rec1.1.2.2.1,
          ((create_ticket st (row_to_create td) now).1).id :: rec1.1.2.2.2), rec1.2)

/-- `ImportService._process_rows`. -/
def process_rows (constructFails : RowData → Bool) (now : Nat)
    (rows : List RowData) (st : TicketServiceState) :
    ImportResult × TicketServiceState :=
  let rec1 := process_rows_go constructFails now rows 0 st
  ({ total := rows.length, success_count := rec1.1.1, error_count := rec1.1.2.1,
     errors := rec1.1.2.2.1, imported_ids := rec1.1.2.2.2 }, rec1.2)

/-- The identifiers of the successfully created records, in creation order,
as the specification describes them. -/
def success_ids (constructFails : RowData → Bool) (now : Nat) :
    List RowData → TicketServiceState → List Nat
  | [], _ => []
  | row :: rows, st =>
    match normalize_row row with
    | none => success_ids constructFails now rows st
    | some td =>
      if validate_ticket_data td = [] ∧ constructFails td = false then
        ((create_ticket st (row_to_create td) now).1).id
          :: success_ids constructFails now rows ((create_ticket st (row_to_create td) now).2)
      else success_ids constructFails now rows st

/-- A parsed JSON document: either an array of candidate rows (each JSON
object modelled as a `RowData`) or any other JSON value. -/
inductive JsonVal
  | arr (rows : List RowData)
  | notArray

/-- `ImportService.import_json`, taking the outcome of the UTF-8 decode and
`json.loads` steps (host-language code) as an `Except`: a decode or parse
failure is a single row-0 error, a non-array value is a single row-0
error, and an array goes to the shared row loop. -/
def json_import (parsed : Except String JsonVal) (constructFails : RowData → Bool)
    (now : Nat) (st : TicketServiceState) : ImportResult × TicketServiceState :=
  match parsed with
  | Except.error e =>
    ({ total := 0, success_count := 0, error_count := 0,
       errors := [⟨0, [e]⟩], imported_ids := [] }, st)
  | Except.ok JsonVal.notArray =>
    ({ total := 0, success_count := 0, error_count := 0,
       errors := [⟨0, [("JSON must be an array of ticket objects")]⟩],
       imported_ids := [] }, st)
  | Except.ok (JsonVal.arr rows) => process_rows constructFails now rows st

/-- A parsed XML element tree. -/
inductive XmlNode
  | elem (tag : String) (text : Option String) (children : List XmlNode)

def xml_tag : XmlNode → String
  | XmlNode.elem t _ _ => t

def xml_children : XmlNode → List XmlNode
  | XmlNode.elem _ _ cs => cs

/-- A row dict with no keys at all. -/
def empty_row : RowData :=
  ⟨none, none, none, none, none, none, none, none, none, none, none, none⟩

/-- One child element of a `<ticket>` element, folded into the row dict:
`<tags>` unpacks to a list of non-empty `<tag>` texts, `<metadata>` to a
metadata group keyed by child tag, known scalar tags set their field, and
unknown tags are dropped (Python stores them in the dict but nothing
downstream reads them). -/
def xml_set_field (r : RowData) (child : XmlNode) : RowData :=
  match child with
  | XmlNode.elem tag text children =>
    if tag = "tags" then
      { r with tags := some (TagsVal.asList (children.filterMap (fun c =>
          match c with
          | XmlNode.elem ct ctext _ =>
            if ct = "tag" then
              match ctext with
              | some s => if s = "" then none else some s
              | none => none
            else none))) }
    else if tag = "metadata" then
      { r with metadata := some (children.foldl (fun (m : MetaDict) c =>
          match c with
          | XmlNode.elem ct ctext _ =>
            if ct = "source" then { m with source := ctext }
            else if ct = "browser" then { m with browser := ctext }
            else if ct = "device_type" then { m with device_type := ctext }
            else m) ⟨none, none, none⟩) }
    else if tag = "customer_id" then { r with customer_id := text }
    else if tag = "customer_email" then { r with customer_email := text }
    else if tag = "customer_name" then { r with customer_name := text }
    else if tag = "subject" then { r with subject := text }
    else if tag = "description" then { r with description := text }
    else if tag = "category" then { r with category := text }
    else if tag = "priority" then { r with priority := text }
    else if tag = "source" then { r with source := text }
    else if tag = "browser" then { r with browser := text }
    else if tag = "device_type" then { r with device_type := text }
    else r

/-- One `<ticket>` element as a row dict. -/
def xml_row (e : XmlNode) : RowData :=
  (xml_children e).foldl xml_set_field empty_row

/-- `ImportService.import_xml`: decode/parse failure and a wrong root tag
are single row-0 errors; otherwise every `<ticket>` child becomes one
candidate row for the shared row loop. -/
def xml_import (parsed : Except String XmlNode) (constructFails : RowData → Bool)
    (now : Nat) (st : TicketServiceState) : ImportResult × TicketServiceState :=
  match parsed with
  | Except.error e =>
    ({ total := 0, success_count := 0, error_count := 0,
       errors := [⟨0, [e]⟩], imported_ids := [] }, st)
  | Except.ok root =>
    if xml_tag root ≠ "tickets" then
      ({ total := 0, success_count := 0, error_count := 0,
         errors := [⟨0, [("XML root element must be tickets")]⟩],
         imported_ids := [] }, st)
    else
      process_rows constructFails now
        (((xml_children root).filter (fun c => decide (xml_tag c = "ticket"))).map xml_row)
        st

/-- A candidate row that passes validation. -/
def wrow_good : RowData :=
  { customer_id := some ("C-1"), customer_email := some ("a@example.com"),
    customer_name := some ("Ann"), subject := some ("Hello"),
    description := some ("Something is broken here"),
    category := some ("technical_issue"), priority := some ("high"),
    tags := some (TagsVal.asList ["web"]),
    metadata := some ⟨some ("api"), none, none⟩,
    source := none, browser := none, device_type := none }

/-- A candidate row that fails validation (missing email, bad category). -/
def wrow_bad : RowData :=
  { customer_id := some ("C-2"), customer_email := none,
    customer_name := some ("Bo"), subject := some ("Hi"),
    description := some ("Another broken thing here"),
    category := some ("nonsense"), priority := some ("high"),
    tags := some (TagsVal.asList ["web"]),
    metadata := some ⟨some ("api"), none, none⟩,
    source := none, browser := none, device_type := none }

/-! ### Theorems -/

theorem pyRound_intCast (n : ℤ) : pyRound (n : ℚ) = n := by
  simp [pyRound, Int.fract_intCast, Int.floor_intCast]

/-- `round(x, 2)` is the identity on values that already have at most two
decimal digits. -/
theorem round2_twoDecimal {q : ℚ} (h : twoDecimal q) : round2 q = q := by
  obtain ⟨n, rfl⟩ := h
  have h100 : ((n : ℚ) / 100) * 100 = (n : ℚ) := by
    field_simp
  rw [round2, h100, pyRound_intCast]

/-! ### Character case lemmas -/

theorem Char.toNat_lt_size (c : Char) : c.toNat < 1114112 := by
  have h := c.valid
  rcases h with h | ⟨_, h⟩
  · exact Nat.lt_trans h (by norm_num)
  · exact h

theorem toNat_ofNat_valid {m : ℕ} (h : m.isValidChar) : (Char.ofNat m).toNat = m := by
  simp only [Char.ofNat, dif_pos h, Char.ofNatAux, Char.toNat, UInt32.toNat]
  simp

theorem Char.toNat_inj_eq {c d : Char} (h : c.toNat = d.toNat) : c = d := by
  apply Char.eq_of_val_eq
  apply UInt32.eq_of_toBitVec_eq
  apply BitVec.eq_of_toNat_eq
  exact h

/-- For an uppercase ASCII letter `c`, matching `c` against `upperChar d`
is the same as matching case-insensitively (lowering both sides). -/
theorem upper_eq_iff_lower_eq {c : Char} (hc : 65 ≤ c.toNat ∧ c.toNat ≤ 90) (d : Char) :
    c = upperChar d ↔ lowerChar c = lowerChar d := by
  have hvalidc : (c.toNat + 32).isValidChar := Or.inl (by omega)
  have hlc : (lowerChar c).toNat = c.toNat + 32 := by
    rw [lowerChar, if_pos hc]; exact toNat_ofNat_valid hvalidc
  by_cases hd : 97 ≤ d.toNat ∧ d.toNat ≤ 122
  · -- d is a lowercase letter
    have hvalidd : (d.toNat - 32).isValidChar := Or.inl (by omega)
    have hu : (upperChar d).toNat = d.toNat - 32 := by
      rw [upperChar, if_pos hd]; exact toNat_ofNat_valid hvalidd
    have hld : lowerChar d = d := by
      rw [lowerChar, if_neg (by omega)]
    rw [hld]
    constructor
    · intro h
      apply Char.toNat_inj_eq
      have : c.toNat = d.toNat - 32 := by rw [h]; exact hu
      omega
    · intro h
      apply Char.toNat_inj_eq
      have : c.toNat + 32 = d.toNat := by rw [← hlc, h]
      omega
  · by_cases hd2 : 65 ≤ d.toNat ∧ d.toNat ≤ 90
    · -- d is an uppercase letter
      have hvalidd : (d.toNat + 32).isValidChar := Or.inl (by omega)
      have hud : upperChar d = d := by
        rw [upperChar, if_neg (by omega)]
      have hld : (lowerChar d).toNat = d.toNat + 32 := by
        rw [lowerChar, if_pos hd2]; exact toNat_ofNat_valid hvalidd
      rw [hud]
      constructor
      · intro h; rw [h]
      · intro h
        apply Char.toNat_inj_eq
        have : c.toNat + 32 = d.toNat + 32 := by rw [← hlc, h, hld]
        omega
    · -- d is neither an uppercase nor a lowercase ASCII letter
      have hud : upperChar d = d := by
        rw [upperChar, if_neg (by omega)]
      have hld : lowerChar d = d := by
        rw [lowerChar, if_neg (by omega)]
      rw [hud, hld]
      constructor
      · intro h
        exfalso
        have := congrArg Char.toNat h
        omega
      · intro h
        exfalso
        have := congrArg Char.toNat h
        rw [hlc] at this
        omega

/-- Lifting `upper_eq_iff_lower_eq` to lists of characters. -/
theorem upperL_eq_iff_lowerL_eq {a : List Char}
    (ha : ∀ c ∈ a, 65 ≤ c.toNat ∧ c.toNat ≤ 90) (f : List Char) :
    a = upperL f ↔ lowerL a = lowerL f := by
  induction a generalizing f with
  | nil =>
    cases f with
    | nil => simp [upperL, lowerL]
    | cons d fs => simp [upperL, lowerL]
  | cons c cs ih =>
    cases f with
    | nil => simp [upperL, lowerL]
    | cons d fs =>
      have hc := ha c (List.mem_cons_self c cs)
      have hcs : ∀ x ∈ cs, 65 ≤ x.toNat ∧ x.toNat ≤ 90 :=
        fun x hx => ha x (List.mem_cons_of_mem c hx)
      simp only [upperL, lowerL, List.map_cons, List.cons.injEq]
      rw [← upperL, ← lowerL, ← lowerL, upper_eq_iff_lower_eq hc d, ih hcs fs]

theorem string_eq_mk_iff (s : String) (l : List Char) :
    s = String.mk l ↔ s.toList = l := by
  cases s
  constructor
  · intro h
    exact congrArg String.data h
  · intro h
    exact congrArg String.mk h

theorem txn_mismatch_ci {t : Transaction} (hup : upperCurrency t.currency) :
    ∀ cur, txn_currency_mismatch t cur = txn_currency_mismatch_ci t cur := by
  intro cur
  cases cur with
  | none => rfl
  | some c =>
    simp only [txn_currency_mismatch, txn_currency_mismatch_ci]
    congr 1
    rw [decide_eq_decide, not_iff_not, upperS, string_eq_mk_iff,
      ← upperL_eq_iff_lowerL_eq hup]

theorem txn_step_eq_delta {t : Transaction} (account_id : String)
    (currency : Option String) (balance : ℚ) (hup : upperCurrency t.currency) :
    txn_step account_id currency balance t = balance + txn_delta account_id currency t := by
  rw [txn_step, txn_delta, txn_mismatch_ci hup]
  by_cases h1 : txn_currency_mismatch_ci t currency = true
  · by_cases h2 : t.status = TransactionStatus.completed <;> simp [h1, h2]
  · by_cases h2 : t.status = TransactionStatus.completed
    · simp only [h1, Bool.false_eq_true, if_false, h2, ne_eq, not_true_eq_false, not_false_eq_true]
      cases htype : t.type <;>
        by_cases hf : t.fromAccount = some account_id <;>
        by_cases ht : t.toAccount = some account_id <;>
        simp [hf, ht] <;> ring
    · simp [h1, h2]

theorem balance_foldl_eq_sum (account_id : String) (currency : Option String)
    (txns : List Transaction) (b : ℚ)
    (hup : ∀ t ∈ txns, upperCurrency t.currency) :
    txns.foldl (txn_step account_id currency) b
      = b + (txns.map (txn_delta account_id currency)).sum := by
  induction txns generalizing b with
  | nil => simp
  | cons t ts ih =>
    have hupt := hup t (List.mem_cons_self t ts)
    have hupts : ∀ x ∈ ts, upperCurrency x.currency :=
      fun x hx => hup x (List.mem_cons_of_mem t hx)
    simp only [List.foldl_cons, List.map_cons, List.sum_cons]
    rw [ih (txn_step account_id currency b t) hupts,
      txn_step_eq_delta account_id currency b hupt]
    ring

/-- C1: `calculate_account_balance` folds over all stored transactions,
skipping non-completed ones and (case-insensitively, given that stored
currencies are uppercase-normalized by the model validator) ones filtered
out by a non-empty currency argument, crediting deposits to the destination,
debiting withdrawals from the source and doing both for transfers; a single
completed deposit of a two-decimal amount A to account X gives X balance +A
and leaves every other account at 0, and a single completed transfer of
50.00 from A to B gives balance(A) = -50.00 and balance(B) = +50.00. -/
theorem calculate_account_balance_correct :
    (∀ (txns : List Transaction) (account_id : String) (currency : Option String),
      (∀ t ∈ txns, upperCurrency t.currency) →
      calculate_account_balance txns account_id currency
        = round2 ((txns.map (txn_delta account_id currency)).sum))
    ∧
    (∀ (t : Transaction) (X : String),
      t.type = TransactionType.deposit → t.status = TransactionStatus.completed →
      t.toAccount = some X → twoDecimal t.amount →
      calculate_account_balance [t] X none = t.amount
        ∧ ∀ Y : String, Y ≠ X → calculate_account_balance [t] Y none = 0)
    ∧
    (∀ (t : Transaction) (A B : String),
      t.type = TransactionType.transfer → t.status = TransactionStatus.completed →
      t.fromAccount = some A → t.toAccount = some B → t.amount = 50 → A ≠ B →
      calculate_account_balance [t] A none = -50
        ∧ calculate_account_balance [t] B none = 50) := by
  refine ⟨?_, ?_, ?_⟩
  · intro txns account_id currency hup
    rw [calculate_account_balance, balance_foldl_eq_sum account_id currency txns 0 hup,
      zero_add]
  · intro t X htype hst hto hdec
    constructor
    · have : calculate_account_balance [t] X none = round2 t.amount := by
        simp [calculate_account_balance, txn_step, txn_currency_mismatch, htype, hst, hto]
      rw [this, round2_twoDecimal hdec]
    · intro Y hYX
      have hne : t.toAccount ≠ some Y := by
        rw [hto]
        intro h
        exact hYX (Option.some.injEq _ _ ▸ h).symm
      have : calculate_account_balance [t] Y none = round2 0 := by
        simp [calculate_account_balance, txn_step, txn_currency_mismatch, htype, hst, hne]
      rw [this, round2_twoDecimal ⟨0, by norm_num⟩]
  · intro t A B htype hst hfrom hto hamt hAB
    constructor
    · have hne : t.toAccount ≠ some A := by
        rw [hto]
        intro h
        exact hAB ((Option.some.injEq _ _ ▸ h)).symm
      have : calculate_account_balance [t] A none = round2 (0 - t.amount) := by
        simp [calculate_account_balance, txn_step, txn_currency_mismatch, htype, hst,
          hfrom, hne, hAB, Ne.symm hAB]
      rw [this, hamt]
      have : (0 : ℚ) - 50 = -50 := by norm_num
      rw [this, round2_twoDecimal ⟨-5000, by norm_num⟩]
    · have hne : t.fromAccount ≠ some B := by
        rw [hfrom]
        intro h
        exact hAB (Option.some.injEq _ _ ▸ h)
      have : calculate_account_balance [t] B none = round2 (0 + t.amount) := by
        simp [calculate_account_balance, txn_step, txn_currency_mismatch, htype, hst,
          hfrom, hne, hto, hAB, Ne.symm hAB]
      rw [this, hamt]
      have : (0 : ℚ) + 50 = 50 := by norm_num
      rw [this, round2_twoDecimal ⟨5000, by norm_num⟩]

/-- Witness for C1 at a concrete completed transfer of 50.00. -/
theorem calculate_account_balance_correct_witness :
    calculate_account_balance
        [⟨none, some ("ACC-AAAAA"), some ("ACC-BBBBB"), 50, "USD",
          TransactionType.transfer, none, TransactionStatus.completed⟩]
        ("ACC-AAAAA") none = -50
    ∧ calculate_account_balance
        [⟨none, some ("ACC-AAAAA"), some ("ACC-BBBBB"), 50, "USD",
          TransactionType.transfer, none, TransactionStatus.completed⟩]
        ("ACC-BBBBB") none = 50 :=
  calculate_account_balance_correct.2.2
    ⟨none, some ("ACC-AAAAA"), some ("ACC-BBBBB"), 50, "USD",
      TransactionType.transfer, none, TransactionStatus.completed⟩
    ("ACC-AAAAA") ("ACC-BBBBB") rfl rfl rfl rfl rfl (by decide)

/-! ### Sorting and lookup lemmas for the classification engine -/

theorem insertDesc_ne_nil (x : TicketCategory × List String)
    (l : List (TicketCategory × List String)) : insertDesc x l ≠ [] := by
  cases l with
  | nil => simp [insertDesc]
  | cons y ys =>
    rw [insertDesc]
    split <;> simp

theorem sortDesc_ne_nil {l : List (TicketCategory × List String)} (h : l ≠ []) :
    sortDesc l ≠ [] := by
  cases l with
  | nil => exact absurd rfl h
  | cons x xs => exact insertDesc_ne_nil x (sortDesc xs)

/-- The head of the stable descending sort is the first element attaining
the maximal matched-keyword count. -/
theorem sortDesc_head_spec (l : List (TicketCategory × List String)) (hl : l ≠ []) :
    ∃ pre b post, l = pre ++ b :: post ∧ (sortDesc l).headI = b ∧
      (∀ x ∈ pre, x.2.length < b.2.length) ∧ (∀ x ∈ l, x.2.length ≤ b.2.length) := by
  induction l with
  | nil => exact absurd rfl hl
  | cons x l ih =>
    by_cases hlnil : l = []
    · subst hlnil
      exact ⟨[], x, [], by simp, by simp [sortDesc, insertDesc], by simp, by simp⟩
    · obtain ⟨pre, b, post, hdecomp, hhead, hpre, hall⟩ := ih hlnil
      have hsne : sortDesc l ≠ [] := sortDesc_ne_nil hlnil
      obtain ⟨c, cs, hcons⟩ := List.exists_cons_of_ne_nil hsne
      have hcb : c = b := by
        have := hhead
        rw [hcons] at this
        simpa using this
      subst hcb
      have hsort : sortDesc (x :: l) = insertDesc x (c :: cs) := by
        rw [sortDesc, hcons]
      by_cases hle : c.2.length ≤ x.2.length
      · refine ⟨[], x, l, by simp, ?_, by simp, ?_⟩
        · rw [hsort, insertDesc, if_pos hle]
          simp
        · intro z hz
          rcases List.mem_cons.mp hz with hz | hz
          · exact le_of_eq (by rw [hz])
          · exact le_trans (hall z hz) hle
      · refine ⟨x :: pre, c, post, by simp [hdecomp], ?_, ?_, ?_⟩
        · rw [hsort, insertDesc, if_neg hle]
          simp
        · intro z hz
          rcases List.mem_cons.mp hz with hz | hz
          · subst hz
            omega
          · exact hpre z hz
        · intro z hz
          rcases List.mem_cons.mp hz with hz | hz
          · subst hz
            omega
          · exact hall z hz

/-- The category keys of the match dictionary form a sublist of the keyword
table keys. -/
theorem category_matches_keys_sublist (t : Ticket) :
    ((category_matches t).map Prod.fst).Sublist (CATEGORY_KEYWORDS.map Prod.fst) := by
  rw [category_matches]
  induction CATEGORY_KEYWORDS with
  | nil => simp
  | cons p ps ih =>
    simp only [List.filterMap_cons]
    by_cases h : (find_keywords (combined_text t) p.2).isEmpty = true
    · simp only [h, if_true, List.map_cons]
      exact ih.cons p.1
    · simp only [h, if_false, List.map_cons]
      exact ih.cons₂ p.1

theorem category_matches_keys_nodup (t : Ticket) :
    ((category_matches t).map Prod.fst).Nodup := by
  refine (category_matches_keys_sublist t).nodup ?_
  decide

theorem lookup_eq_of_mem_of_nodup {α β : Type} [DecidableEq α]
    {l : List (α × β)} {k : α} {v : β}
    (hmem : (k, v) ∈ l) (hnd : (l.map Prod.fst).Nodup) :
    l.lookup k = some v := by
  induction l with
  | nil => simp at hmem
  | cons p ps ih =>
    rcases List.mem_cons.mp hmem with h | h
    · subst h
      simp [List.lookup]
    · have hk : k ≠ p.1 := by
        intro hkp
        have : p.1 ∈ ps.map Prod.fst := by
          rw [← hkp]
          exact List.mem_map.mpr ⟨(k, v), h, rfl⟩
        rw [List.map_cons] at hnd
        exact (List.nodup_cons.mp hnd).1 this
      have hnd2 : (ps.map Prod.fst).Nodup := by
        rw [List.map_cons] at hnd
        exact (List.nodup_cons.mp hnd).2
      cases p with
      | mk k2 v2 =>
        rw [List.lookup]
        have : (k == k2) = false := by
          simp only [beq_eq_false_iff_ne, ne_eq]
          exact hk
        rw [this]
        exact ih h hnd2

/-- C2: when more than one category matches, `_classify_category` applies
the disambiguation policy: if `bug_report` is among the matches and the
lowercased text contains a reproduction-specific keyword, the result is
`bug_report` with confidence exactly 0.8 and `bug_report`'s matched list;
otherwise the winner is the first-declared category with the largest
matched-keyword count, with confidence
min(1, 0.6 + 0.1·count) − 0.1·(matching categories − 1), floored at 0.3. -/
theorem classify_category_disambiguation (t : Ticket)
    (h2 : 2 ≤ (category_matches t).length) :
    ((∃ kw ∈ bug_specific, infixOf kw.toList (lowerL (combined_text t).toList) = true) →
      ∀ kws, (TicketCategory.bug_report, kws) ∈ category_matches t →
        classify_category t = (TicketCategory.bug_report, 8/10, kws))
    ∧
    (¬ ((∃ kws, (TicketCategory.bug_report, kws) ∈ category_matches t) ∧
        ∃ kw ∈ bug_specific, infixOf kw.toList (lowerL (combined_text t).toList) = true) →
      ∃ pre c found post,
        category_matches t = pre ++ (c, found) :: post ∧
        (∀ x ∈ pre, x.2.length < found.length) ∧
        (∀ x ∈ category_matches t, x.2.length ≤ found.length) ∧
        classify_category t = (c,
          pymax (3/10) (pymin 1 (6/10 + (found.length : ℚ) / 10)
            - (((category_matches t).length : ℚ) - 1) / 10),
          found)) := by
  rcases hms : category_matches t with _ | ⟨m1, _ | ⟨m2, rest⟩⟩
  · rw [hms] at h2; simp at h2
  · rw [hms] at h2; simp at h2
  constructor
  · intro hbug kws hmem
    have hmem2 : (TicketCategory.bug_report, kws) ∈ m1 :: m2 :: rest := hms ▸ hmem
    have hany : ((m1 :: m2 :: rest).any
        (fun p => decide (p.1 = TicketCategory.bug_report))) = true := by
      rw [List.any_eq_true]
      exact ⟨(TicketCategory.bug_report, kws), hmem2, by simp⟩
    have hspec : (bug_specific.any
        (fun kw => infixOf kw.toList (lowerL (combined_text t).toList))) = true := by
      rw [List.any_eq_true]
      obtain ⟨kw, hkwmem, hkw⟩ := hbug
      exact ⟨kw, hkwmem, hkw⟩
    have hlookup : (m1 :: m2 :: rest).lookup TicketCategory.bug_report = some kws := by
      apply lookup_eq_of_mem_of_nodup hmem2
      rw [← hms]
      exact category_matches_keys_nodup t
    simp only [classify_category, hms, hany, hspec, Bool.and_self, if_true, hlookup,
      Option.getD_some]
  · intro hneg
    have hcond : (((m1 :: m2 :: rest).any
        (fun p => decide (p.1 = TicketCategory.bug_report))) &&
        (bug_specific.any
          (fun kw => infixOf kw.toList (lowerL (combined_text t).toList)))) = false := by
      rw [Bool.and_eq_false_iff]
      by_contra hcontra
      push_neg at hcontra
      obtain ⟨ha, hb⟩ := hcontra
      rw [Bool.ne_false_iff, List.any_eq_true] at ha hb
      apply hneg
      constructor
      · obtain ⟨p, hpmem, hp⟩ := ha
        rw [decide_eq_true_eq] at hp
        exact ⟨p.2, by rw [← hp]; exact hpmem⟩
      · obtain ⟨kw, hkwmem, hkw⟩ := hb
        exact ⟨kw, hkwmem, hkw⟩
    obtain ⟨pre, b, post, hdecomp, hhead, hpre, hall⟩ :=
      sortDesc_head_spec (m1 :: m2 :: rest) (by simp)
    refine ⟨pre, b.1, b.2, post, ?_, ?_, ?_, ?_⟩
    · rw [hdecomp]
    · exact hpre
    · exact hall
    · simp only [classify_category, hms, hcond, Bool.false_eq_true, if_false, hhead]

/-- Witness for C2 at a ticket matching `bug_report` and `technical_issue`
with the reproduction keyword present. -/
theorem classify_category_disambiguation_witness :
    2 ≤ (category_matches wticket_bug).length ∧
    classify_category wticket_bug
      = (TicketCategory.bug_report, 8/10, ["bug", "reproduce"]) :=
  ⟨by decide,
    (classify_category_disambiguation wticket_bug (by decide)).1
      ⟨("reproduce"), by decide, by decide⟩ (["bug", "reproduce"]) (by decide)⟩

theorem pymin_eq_min (a b : ℚ) : pymin a b = min a b := (min_def a b).symm

theorem pymax_eq_max (a b : ℚ) : pymax a b = max a b := (max_def a b).symm

/-- C3: `classify` always returns a confidence in [0,1]; with no category
and no priority keyword match, the result is category `other`, confidence
0.3, empty keyword list; with exactly one matching category, confidence is
min(1, 0.6 + 0.1·matched_count). -/
theorem classify_confidence_bounds :
    (∀ t : Ticket, 0 ≤ (classify_ticket t).confidence ∧ (classify_ticket t).confidence ≤ 1)
    ∧
    (∀ t : Ticket, category_matches t = [] →
      (∀ p, find_keywords (combined_text t) (PRIORITY_KEYWORDS p) = []) →
      (classify_ticket t).suggested_category = TicketCategory.other ∧
      (classify_ticket t).confidence = 3/10 ∧
      (classify_ticket t).keywords_found = [])
    ∧
    (∀ (t : Ticket) (m : TicketCategory × List String), category_matches t = [m] →
      (classify_ticket t).confidence = pymin 1 (6/10 + (m.2.length : ℚ) / 10)) := by
  have hconf : ∀ t : Ticket, (classify_ticket t).confidence = (classify_category t).2.1 :=
    fun t => rfl
  refine ⟨?_, ?_, ?_⟩
  · intro t
    rw [hconf]
    rcases hms : category_matches t with _ | ⟨m1, _ | ⟨m2, rest⟩⟩ <;>
      simp only [classify_category, hms]
    · norm_num
    · rw [pymin_eq_min]
      constructor
      · apply le_min (by norm_num)
        positivity
      · exact min_le_left _ _
    · split
      · norm_num
      · rw [pymax_eq_max, pymin_eq_min]
        have hlen : (1 : ℚ) ≤ ((m1 :: m2 :: rest).length : ℚ) := by
          have : 1 ≤ (m1 :: m2 :: rest).length := by simp
          exact_mod_cast this
        constructor
        · apply le_trans (by norm_num : (0:ℚ) ≤ 3/10)
          exact le_max_left _ _
        · apply max_le (by norm_num)
          have h1 : min 1 (6/10 + ((sortDesc (m1 :: m2 :: rest)).headI.2.length : ℚ) / 10) ≤ 1 :=
            min_le_left _ _
          have h2 : (0:ℚ) ≤ (((m1 :: m2 :: rest).length : ℚ) - 1) / 10 := by
            apply div_nonneg _ (by norm_num)
            linarith
          linarith
  · intro t hms hp
    have hcat : classify_category t = (TicketCategory.other, 3/10, []) := by
      simp only [classify_category, hms]
    have hpri : classify_priority t = (TicketPriority.medium, []) := by
      simp only [classify_priority, hp, ne_eq, not_true_eq_false, if_false]
    refine ⟨?_, ?_, ?_⟩
    · show (classify_category t).1 = TicketCategory.other
      rw [hcat]
    · rw [hconf, hcat]
    · show (classify_category t).2.2 ++ (classify_priority t).2 = []
      rw [hcat, hpri]
      rfl
  · intro t m hms
    rw [hconf]
    simp only [classify_category, hms]

/-- Witness for C3 at a ticket with no keyword matches at all. -/
theorem classify_confidence_bounds_witness :
    category_matches wticket_nomatch = [] ∧
    (classify_ticket wticket_nomatch).suggested_category = TicketCategory.other ∧
    (classify_ticket wticket_nomatch).confidence = 3/10 ∧
    (classify_ticket wticket_nomatch).keywords_found = [] :=
  ⟨by decide,
    classify_confidence_bounds.2.1 wticket_nomatch (by decide) (by decide)⟩

theorem infixOf_iff (pat : List Char) (l : List Char) :
    infixOf pat l = true ↔ pat <:+: l := by
  induction l with
  | nil =>
    rw [infixOf, List.isEmpty_iff, List.infix_nil]
  | cons c t ih =>
    rw [infixOf, Bool.or_eq_true, List.isPrefixOf_iff_prefix, ih, List.infix_cons_iff]

/-- C4: priority is classified by scanning urgent, then high, then low;
the first level with a match wins and reports its matched keywords; with no
match anywhere the priority is medium with an empty list; in particular a
description containing "production down" and "can't access" is classified
urgent. -/
theorem classify_priority_scan :
    (∀ t : Ticket,
      (find_keywords (combined_text t) (PRIORITY_KEYWORDS TicketPriority.urgent) ≠ [] →
        classify_priority t = (TicketPriority.urgent,
          find_keywords (combined_text t) (PRIORITY_KEYWORDS TicketPriority.urgent)))
      ∧ (find_keywords (combined_text t) (PRIORITY_KEYWORDS TicketPriority.urgent) = [] →
         find_keywords (combined_text t) (PRIORITY_KEYWORDS TicketPriority.high) ≠ [] →
        classify_priority t = (TicketPriority.high,
          find_keywords (combined_text t) (PRIORITY_KEYWORDS TicketPriority.high)))
      ∧ (find_keywords (combined_text t) (PRIORITY_KEYWORDS TicketPriority.urgent) = [] →
         find_keywords (combined_text t) (PRIORITY_KEYWORDS TicketPriority.high) = [] →
         find_keywords (combined_text t) (PRIORITY_KEYWORDS TicketPriority.low) ≠ [] →
        classify_priority t = (TicketPriority.low,
          find_keywords (combined_text t) (PRIORITY_KEYWORDS TicketPriority.low)))
      ∧ (find_keywords (combined_text t) (PRIORITY_KEYWORDS TicketPriority.urgent) = [] →
         find_keywords (combined_text t) (PRIORITY_KEYWORDS TicketPriority.high) = [] →
         find_keywords (combined_text t) (PRIORITY_KEYWORDS TicketPriority.low) = [] →
        classify_priority t = (TicketPriority.medium, []))
      ∧ (classify_ticket t).suggested_priority = (classify_priority t).1)
    ∧
    (∀ t : Ticket,
      infixOf (("production down").toList) (lowerL t.description.toList) = true →
      infixOf (("can\x27t access").toList) (lowerL t.description.toList) = true →
      (classify_ticket t).suggested_priority = TicketPriority.urgent) := by
  constructor
  · intro t
    refine ⟨?_, ?_, ?_, ?_, rfl⟩
    · intro h1
      simp only [classify_priority, ne_eq, h1, not_false_eq_true, if_true]
    · intro h1 h2
      simp only [classify_priority, ne_eq, h1, not_true_eq_false, if_false,
        h2, not_false_eq_true, if_true]
    · intro h1 h2 h3
      simp only [classify_priority, ne_eq, h1, h2, not_true_eq_false, if_false,
        h3, not_false_eq_true, if_true]
    · intro h1 h2 h3
      simp only [classify_priority, ne_eq, h1, h2, h3, not_true_eq_false, if_false]
  · intro t hpd _
    have hsuffix : lowerL t.description.toList <:+: lowerL (combined_text t).toList := by
      have h1 : (combined_text t).toList
          = (t.subject.toList ++ (" ").toList) ++ t.description.toList := by
        rw [combined_text]
        show (t.subject ++ " " ++ t.description).data = _
        rw [String.data_append, String.data_append]
        rfl
      have h2 : lowerL ((t.subject.toList ++ (" ").toList) ++ t.description.toList)
          = lowerL (t.subject.toList ++ (" ").toList) ++ lowerL t.description.toList :=
        List.map_append lowerChar _ _
      rw [h1, h2]
      exact (List.suffix_append _ _).isInfix
    have hin : infixOf (("production down").toList) (lowerL (combined_text t).toList) = true := by
      rw [infixOf_iff]
      exact List.IsInfix.trans ((infixOf_iff _ _).mp hpd) hsuffix
    have hmem : ("production down") ∈
        find_keywords (combined_text t) (PRIORITY_KEYWORDS TicketPriority.urgent) := by
      rw [find_keywords]
      apply List.mem_filter.mpr
      refine ⟨by decide, ?_⟩
      have hlow : lowerL (("production down").toList) = ("production down").toList := by
        decide
      rw [hlow]
      exact hin
    have hne : find_keywords (combined_text t) (PRIORITY_KEYWORDS TicketPriority.urgent) ≠ [] :=
      List.ne_nil_of_mem hmem
    have := ((by
      simp only [classify_priority, ne_eq, hne, not_false_eq_true, if_true]) :
      classify_priority t = (TicketPriority.urgent,
        find_keywords (combined_text t) (PRIORITY_KEYWORDS TicketPriority.urgent)))
    show (classify_priority t).1 = TicketPriority.urgent
    rw [this]

/-- Witness for C4 at a ticket whose description contains "production down"
and "can't access". -/
theorem classify_priority_scan_witness :
    infixOf (("production down").toList) (lowerL wticket_urgent.description.toList) = true ∧
    (classify_ticket wticket_urgent).suggested_priority = TicketPriority.urgent :=
  ⟨by decide, classify_priority_scan.2 wticket_urgent (by decide) (by decide)⟩

/-- C10: classification is a function of the subject and description text
alone — two tickets with equal subject and description get the same
suggested category, suggested priority, confidence and keyword list,
whatever their other fields (and classification reads no store state: the
embedding of `classify_ticket` takes only the ticket as input). -/
theorem classify_depends_only_on_text (t1 t2 : Ticket)
    (hs : t1.subject = t2.subject) (hd : t1.description = t2.description) :
    (classify_ticket t1).suggested_category = (classify_ticket t2).suggested_category ∧
    (classify_ticket t1).suggested_priority = (classify_ticket t2).suggested_priority ∧
    (classify_ticket t1).confidence = (classify_ticket t2).confidence ∧
    (classify_ticket t1).keywords_found = (classify_ticket t2).keywords_found := by
  have hc : combined_text t1 = combined_text t2 := by
    rw [combined_text, combined_text, hs, hd]
  have hcm : category_matches t1 = category_matches t2 := by
    rw [category_matches, category_matches, hc]
  have hcc : classify_category t1 = classify_category t2 := by
    simp only [classify_category, hc, hcm]
  have hcp : classify_priority t1 = classify_priority t2 := by
    simp only [classify_priority, hc]
  refine ⟨?_, ?_, ?_, ?_⟩ <;>
    simp only [classify_ticket, hcc, hcp]

/-- Witness for C10 at two tickets sharing text but differing in every
other field. -/
theorem classify_depends_only_on_text_witness :
    (classify_ticket wticket_bug).suggested_category
      = (classify_ticket wticket_bug2).suggested_category ∧
    (classify_ticket wticket_bug).suggested_priority
      = (classify_ticket wticket_bug2).suggested_priority ∧
    (classify_ticket wticket_bug).confidence
      = (classify_ticket wticket_bug2).confidence ∧
    (classify_ticket wticket_bug).keywords_found
      = (classify_ticket wticket_bug2).keywords_found :=
  classify_depends_only_on_text wticket_bug wticket_bug2 rfl rfl

/-! ### Ticket store lemmas -/

theorem lookup_replace_ne {st : List (Nat × Ticket)} {j i : Nat} (t3 : Ticket)
    (h : i ≠ j) :
    (st.map (fun p => if p.1 = j then (j, t3) else p)).lookup i = st.lookup i := by
  induction st with
  | nil => simp
  | cons p ps ih =>
    simp only [List.map_cons]
    by_cases hp : p.1 = j
    · rw [if_pos hp, List.lookup_cons, List.lookup_cons]
      have hbeq : (i == j) = false := beq_eq_false_iff_ne.mpr h
      have hbeq2 : (i == p.1) = false := beq_eq_false_iff_ne.mpr (hp ▸ h)
      rw [hbeq, hbeq2, ih]
    · rw [if_neg hp, List.lookup_cons, List.lookup_cons]
      by_cases hi : (i == p.1) = true
      · rw [hi]
      · rw [Bool.not_eq_true] at hi
        rw [hi, ih]

theorem lookup_replace_self {st : List (Nat × Ticket)} {j : Nat} (t3 : Ticket) :
    (st.map (fun p => if p.1 = j then (j, t3) else p)).lookup j
      = (st.lookup j).map (fun _ => t3) := by
  induction st with
  | nil => simp
  | cons p ps ih =>
    simp only [List.map_cons]
    by_cases hp : p.1 = j
    · rw [if_pos hp, List.lookup_cons, List.lookup_cons]
      have hbeq : (j == p.1) = true := beq_iff_eq.mpr hp.symm
      rw [hbeq]
      simp
    · rw [if_neg hp, List.lookup_cons, List.lookup_cons]
      have hbeq : (j == p.1) = false := beq_eq_false_iff_ne.mpr (fun hh => hp hh.symm)
      rw [hbeq, ih]

theorem lookup_filter_self (st : List (Nat × Ticket)) (i : Nat) :
    (st.filter (fun p => p.1 != i)).lookup i = none := by
  rw [List.lookup_eq_none_iff]
  intro p hp
  have := (List.mem_filter.mp hp).2
  rw [bne_iff_ne] at this ⊢
  exact Ne.symm this

theorem lookup_filter_ne {st : List (Nat × Ticket)} {j i : Nat} (h : i ≠ j) :
    (st.filter (fun p => p.1 != j)).lookup i = st.lookup i := by
  induction st with
  | nil => simp
  | cons p ps ih =>
    rw [List.filter_cons]
    by_cases hp : p.1 = j
    · have : (p.1 != j) = false := by simp [hp]
      rw [this, if_neg (by simp)]
      rw [List.lookup_cons]
      have hbeq : (i == p.1) = false := beq_eq_false_iff_ne.mpr (hp ▸ h)
      rw [hbeq, ih]
    · have : (p.1 != j) = true := bne_iff_ne.mpr hp
      rw [this, if_pos rfl, List.lookup_cons, List.lookup_cons]
      by_cases hi : (i == p.1) = true
      · rw [hi]
      · rw [Bool.not_eq_true] at hi
        rw [hi, ih]

theorem keys_replace (st : List (Nat × Ticket)) (j : Nat) (t3 : Ticket) :
    ((st.map (fun p => if p.1 = j then (j, t3) else p)).map Prod.fst)
      = st.map Prod.fst := by
  rw [List.map_map]
  apply List.map_congr_left
  intro p _
  by_cases hp : p.1 = j
  · simp [hp]
  · simp [hp]

theorem wf_apply_op {s : TicketServiceState} (hwf : wf_state s) (op : TicketOp) :
    wf_state (apply_op s op) := by
  cases op with
  | create d now =>
    intro k hk
    show k < s.nextId + 1
    simp only [apply_op, create_ticket, List.map_append, List.mem_append] at hk
    rcases hk with hk | hk
    · exact Nat.lt_succ_of_lt (hwf k hk)
    · simp at hk
      omega
  | update i u now =>
    simp only [apply_op, update_ticket]
    cases hl : s.store.lookup i with
    | none => exact hwf
    | some t =>
      intro k hk
      rw [keys_replace] at hk
      exact hwf k hk
  | delete i =>
    simp only [apply_op, delete_ticket]
    by_cases hl : (s.store.lookup i).isSome
    · rw [if_pos hl]
      intro k hk
      apply hwf k
      obtain ⟨p, hpmem, rfl⟩ := List.mem_map.mp hk
      exact List.mem_map.mpr ⟨p, (List.mem_filter.mp hpmem).1, rfl⟩
    · rw [if_neg hl]
      exact hwf

theorem update_ticket_of_none {s : TicketServiceState} {i : Nat} (u : TicketUpdate)
    (now : Nat) (h : s.store.lookup i = none) :
    update_ticket s i u now = (none, s) := by
  simp [update_ticket, h]

theorem update_ticket_of_some {s : TicketServiceState} {i : Nat} {t : Ticket}
    (u : TicketUpdate) (now : Nat) (h : s.store.lookup i = some t) :
    update_ticket s i u now = (some (update_result t u now),
      ⟨s.nextId, s.store.map (fun p => if p.1 = i then (i, update_result t u now) else p)⟩) := by
  simp [update_ticket, h]

theorem delete_ticket_of_some {s : TicketServiceState} {i : Nat}
    (h : (s.store.lookup i).isSome = true) :
    delete_ticket s i = (true, ⟨s.nextId, s.store.filter (fun p => p.1 != i)⟩) := by
  rw [delete_ticket, if_pos h]

theorem delete_ticket_of_none {s : TicketServiceState} {i : Nat}
    (h : ¬ (s.store.lookup i).isSome = true) :
    delete_ticket s i = (false, s) := by
  rw [delete_ticket, if_neg h]

theorem create_ticket_snd (s : TicketServiceState) (d : TicketCreate) (now : Nat) :
    (create_ticket s d now).2
      = ⟨s.nextId + 1, s.store ++ [(s.nextId, (create_ticket s d now).1)]⟩ := rfl

theorem update_result_resolved_at (t : Ticket) (u : TicketUpdate) (now : Nat) :
    (update_result t u now).resolved_at
      = if u.status = some TicketStatus.resolved ∧ t.resolved_at = none
        then some now else t.resolved_at := by
  rw [update_result, apply_ite (fun x : Ticket => x.resolved_at)]
  rfl

theorem nextId_apply_op (s : TicketServiceState) (op : TicketOp) :
    s.nextId ≤ (apply_op s op).nextId := by
  cases op with
  | create d now =>
    show s.nextId ≤ ((create_ticket s d now).2).nextId
    rw [create_ticket_snd]
    exact Nat.le_succ _
  | update i u now =>
    show s.nextId ≤ ((update_ticket s i u now).2).nextId
    cases h : s.store.lookup i with
    | none => rw [update_ticket_of_none u now h]
    | some t => rw [update_ticket_of_some u now h]
  | delete i =>
    show s.nextId ≤ ((delete_ticket s i).2).nextId
    by_cases h : (s.store.lookup i).isSome = true
    · rw [delete_ticket_of_some h]
    · rw [delete_ticket_of_none h]

theorem resolved_at_persists (ops : List TicketOp) :
    ∀ (s : TicketServiceState) (i r : Nat),
      wf_state s → i < s.nextId →
      ((∃ t, s.store.lookup i = some t ∧ t.resolved_at = some r) ∨ s.store.lookup i = none) →
      ((∃ t, (run_ops s ops).store.lookup i = some t ∧ t.resolved_at = some r)
        ∨ (run_ops s ops).store.lookup i = none) := by
  induction ops with
  | nil => exact fun s i r _ _ h => h
  | cons op rest ih =>
    intro s i r hwf hi h
    have hrun : run_ops s (op :: rest) = run_ops (apply_op s op) rest := rfl
    rw [hrun]
    apply ih (apply_op s op) i r (wf_apply_op hwf op)
      (Nat.lt_of_lt_of_le hi (nextId_apply_op s op))
    cases op with
    | create d now =>
      have hstore : (apply_op s (TicketOp.create d now)).store.lookup i
          = s.store.lookup i := by
        show ((create_ticket s d now).2).store.lookup i = s.store.lookup i
        rw [create_ticket_snd]
        show (s.store ++ [(s.nextId, (create_ticket s d now).1)]).lookup i
          = s.store.lookup i
        rw [List.lookup_append]
        have hone : ([(s.nextId, (create_ticket s d now).1)]
            : List (Nat × Ticket)).lookup i = none := by
          rw [List.lookup_cons]
          have hbeq : (i == s.nextId) = false :=
            beq_eq_false_iff_ne.mpr (Nat.ne_of_lt hi)
          rw [hbeq]
          rfl
        rw [hone]
        cases s.store.lookup i <;> rfl
      rw [hstore]
      exact h
    | update j u now =>
      have happ : apply_op s (TicketOp.update j u now) = (update_ticket s j u now).2 := rfl
      rw [happ]
      cases hl : s.store.lookup j with
      | none =>
        rw [update_ticket_of_none u now hl]
        exact h
      | some t =>
        have hst : ((update_ticket s j u now).2).store
            = s.store.map (fun p => if p.1 = j then (j, update_result t u now) else p) := by
          rw [update_ticket_of_some u now hl]
        rw [hst]
        by_cases hij : i = j
        · subst hij
          rcases h with ⟨t2, ht2, hres⟩ | hnone
          · rw [hl] at ht2
            have heq : t = t2 := Option.some.inj ht2
            subst heq
            left
            rw [lookup_replace_self, hl]
            refine ⟨update_result t u now, rfl, ?_⟩
            rw [update_result_resolved_at, if_neg (by
              intro hcond
              rw [hres] at hcond
              exact Option.some_ne_none r hcond.2)]
            exact hres
          · rw [hl] at hnone
            cases hnone
        · rw [lookup_replace_ne _ hij]
          exact h
    | delete j =>
      have happ : apply_op s (TicketOp.delete j) = (delete_ticket s j).2 := rfl
      rw [happ]
      by_cases hl : (s.store.lookup j).isSome = true
      · have hst : ((delete_ticket s j).2).store
            = s.store.filter (fun p => p.1 != j) := by
          rw [delete_ticket_of_some hl]
        rw [hst]
        by_cases hij : i = j
        · subst hij
          right
          exact lookup_filter_self s.store i
        · rw [lookup_filter_ne hij]
          exact h
      · rw [delete_ticket_of_none hl]
        exact h

theorem update_result_eq_spec (t : Ticket) (u : TicketUpdate) (now : Nat) :
    update_result t u now = updated_spec t u now := by
  have hli : update_result t u now
      = (if u.status = some TicketStatus.resolved ∧ t.resolved_at = none
        then { { apply_update t u with updated_at := now } with resolved_at := some now }
        else { apply_update t u with updated_at := now }) := rfl
  rw [hli, updated_spec]
  by_cases hc : u.status = some TicketStatus.resolved ∧ t.resolved_at = none
  · rw [if_pos hc, if_pos hc]
    rw [apply_update]
  · rw [if_neg hc, if_neg hc]
    rw [apply_update]

/-- C8: the resolution timestamp is absent at creation, is set by the first
update whose status field is resolved, and is never changed by any later
operation; a successful update produces exactly `updated_spec` (only fields
present in the partial change, `updated_at` refreshes); updating an absent
identifier returns `none` and leaves the store unchanged. -/
theorem update_resolved_at_lifecycle :
    (∀ (s : TicketServiceState) (d : TicketCreate) (now : Nat),
      ((create_ticket s d now).1).resolved_at = none ∧
      ((create_ticket s d now).1).status = TicketStatus.new)
    ∧
    (∀ (s : TicketServiceState) (i : Nat) (u : TicketUpdate) (now : Nat),
      s.store.lookup i = none → update_ticket s i u now = (none, s))
    ∧
    (∀ (s : TicketServiceState) (i : Nat) (u : TicketUpdate) (now : Nat) (t : Ticket),
      s.store.lookup i = some t →
      (update_ticket s i u now).1 = some (updated_spec t u now))
    ∧
    (∀ (ops : List TicketOp) (s : TicketServiceState) (i r : Nat) (t : Ticket),
      wf_state s → s.store.lookup i = some t → t.resolved_at = some r →
      ∀ t2, (run_ops s ops).store.lookup i = some t2 → t2.resolved_at = some r) := by
  refine ⟨?_, ?_, ?_, ?_⟩
  · intro s d now
    exact ⟨rfl, rfl⟩
  · intro s i u now h
    exact update_ticket_of_none u now h
  · intro s i u now t h
    rw [update_ticket_of_some u now h, update_result_eq_spec]
  · intro ops s i r t hwf hl hres t2 h2
    have hi : i < s.nextId := by
      have hsome : (s.store.lookup i).isSome = true := by rw [hl]; rfl
      rw [List.lookup_isSome_iff] at hsome
      obtain ⟨p, hp, hbeq⟩ := hsome
      have hip : i = p.1 := beq_iff_eq.mp hbeq
      exact hip ▸ hwf p.1 (List.mem_map.mpr ⟨p, hp, rfl⟩)
    rcases resolved_at_persists ops s i r hwf hi (Or.inl ⟨t, hl, hres⟩) with
      ⟨t3, ht3, hres3⟩ | hnone
    · rw [h2] at ht3
      have heq : t2 = t3 := Option.some.inj ht3
      rw [heq]
      exact hres3
    · rw [h2] at hnone
      cases hnone

/-- Witness for C8: resolving a stored unresolved ticket sets the
resolution timestamp to the update instant. -/
theorem update_resolved_at_lifecycle_witness :
    wstate.store.lookup 1 = some wticket_stored ∧
    (update_ticket wstate 1 wupdate_resolve 6).1
      = some (updated_spec wticket_stored wupdate_resolve 6) ∧
    (updated_spec wticket_stored wupdate_resolve 6).resolved_at = some 6 :=
  ⟨rfl,
    update_resolved_at_lifecycle.2.2.1 wstate 1 wupdate_resolve 6 wticket_stored rfl,
    by decide⟩

/-- C9: deleting a present identifier removes it and returns true; deleting
it again returns false with the store unchanged; deleting an absent
identifier returns false and leaves the store unchanged. -/
theorem delete_ticket_idempotent :
    (∀ (s : TicketServiceState) (i : Nat) (t : Ticket),
      s.store.lookup i = some t →
      (delete_ticket s i).1 = true ∧
      ((delete_ticket s i).2).store.lookup i = none ∧
      delete_ticket ((delete_ticket s i).2) i = (false, (delete_ticket s i).2))
    ∧
    (∀ (s : TicketServiceState) (i : Nat),
      s.store.lookup i = none → delete_ticket s i = (false, s)) := by
  constructor
  · intro s i t h
    have hsome : (s.store.lookup i).isSome = true := by rw [h]; rfl
    have hdel : delete_ticket s i = (true, ⟨s.nextId, s.store.filter (fun p => p.1 != i)⟩) :=
      delete_ticket_of_some hsome
    have hstore : ((delete_ticket s i).2).store = s.store.filter (fun p => p.1 != i) := by
      rw [hdel]
    have hnone : ((delete_ticket s i).2).store.lookup i = none := by
      rw [hstore]
      exact lookup_filter_self s.store i
    refine ⟨by rw [hdel], hnone, ?_⟩
    apply delete_ticket_of_none
    rw [hnone]
    simp
  · intro s i h
    apply delete_ticket_of_none
    rw [h]
    simp

/-- Witness for C9 on the one-ticket store. -/
theorem delete_ticket_idempotent_witness :
    (delete_ticket wstate 1).1 = true ∧
    ((delete_ticket wstate 1).2).store.lookup 1 = none ∧
    delete_ticket ((delete_ticket wstate 1).2) 1 = (false, (delete_ticket wstate 1).2) :=
  delete_ticket_idempotent.1 wstate 1 wticket_stored rfl

/-! ### Filter membership lemmas -/

theorem mem_filter_by_account (txns : List Transaction) (a : String) (t : Transaction) :
    t ∈ filter_by_account txns a ↔ t ∈ txns ∧ (a ≠ "" →
      (t.fromAccount = some a ∨ t.toAccount = some a)) := by
  by_cases h : a = ""
  · simp [filter_by_account, h]
  · simp [filter_by_account, h, List.mem_filter]

theorem mem_filter_by_type (txns : List Transaction) (ty : String) (t : Transaction) :
    t ∈ filter_by_type txns ty ↔ t ∈ txns ∧ (ty ≠ "" →
      ∃ ft, parse_transaction_type (lowerS ty) = some ft ∧ t.type = ft) := by
  by_cases h : ty = ""
  · simp [filter_by_type, h]
  · cases hp : parse_transaction_type (lowerS ty) with
    | none => simp [filter_by_type, h, hp]
    | some ft => simp [filter_by_type, h, hp, List.mem_filter]

theorem mem_filter_from (parse : String → Option Nat) (txns : List Transaction)
    (fd : Option String) (t : Transaction) :
    t ∈ filter_from parse txns fd ↔ t ∈ txns ∧ date_from_pass parse fd t := by
  cases fd with
  | none => simp [filter_from, date_from_pass]
  | some f =>
    by_cases h : f = ""
    · simp [filter_from, date_from_pass, h]
    · cases hp : parse (replaceZ f) with
      | none => simp [filter_from, date_from_pass, h, hp]
      | some n =>
        have hlist : filter_from parse txns (some f)
            = txns.filter (fun t2 => match t2.timestamp with
              | some ts => decide (n ≤ ts)
              | none => false) := by
          rw [filter_from, if_neg h, hp]
        rw [hlist, List.mem_filter, date_from_pass]
        simp only [h, ne_eq, not_false_eq_true, forall_const, hp]
        apply and_congr_right
        intro _
        cases hts : t.timestamp with
        | none => simp [hts]
        | some ts => simp [hts]

theorem mem_filter_to (parse : String → Option Nat) (txns : List Transaction)
    (td : Option String) (t : Transaction) :
    t ∈ filter_to parse txns td ↔ t ∈ txns ∧ date_to_pass parse td t := by
  cases td with
  | none => simp [filter_to, date_to_pass]
  | some f =>
    by_cases h : f = ""
    · simp [filter_to, date_to_pass, h]
    · cases hp : parse (replaceZ f) with
      | none => simp [filter_to, date_to_pass, h, hp]
      | some n =>
        have hlist : filter_to parse txns (some f)
            = txns.filter (fun t2 => match t2.timestamp with
              | some ts => decide (ts ≤ n)
              | none => false) := by
          rw [filter_to, if_neg h, hp]
        rw [hlist, List.mem_filter, date_to_pass]
        simp only [h, ne_eq, not_false_eq_true, forall_const, hp]
        apply and_congr_right
        intro _
        cases hts : t.timestamp with
        | none => simp [hts]
        | some ts => simp [hts]

theorem filter_from_falsy (parse : String → Option Nat) (txns : List Transaction)
    {fd : Option String} (h : truthyOpt fd = false) :
    filter_from parse txns fd = txns := by
  cases fd with
  | none => rfl
  | some f =>
    rw [truthyOpt] at h
    rw [decide_eq_false_iff_not, not_not] at h
    rw [filter_from, if_pos h]

theorem filter_to_falsy (parse : String → Option Nat) (txns : List Transaction)
    {td : Option String} (h : truthyOpt td = false) :
    filter_to parse txns td = txns := by
  cases td with
  | none => rfl
  | some f =>
    rw [truthyOpt] at h
    rw [decide_eq_false_iff_not, not_not] at h
    rw [filter_to, if_pos h]

theorem apply_filters_eq_chain (parse : String → Option Nat) (txns : List Transaction)
    (a ty : String) (fd td : Option String) :
    apply_filters parse txns (some a) (some ty) fd td
      = filter_by_date_range parse (filter_by_type (filter_by_account txns a) ty) fd td := by
  have hacct : (if a = "" then txns else filter_by_account txns a)
      = filter_by_account txns a := by
    by_cases h : a = ""
    · rw [if_pos h, filter_by_account, if_pos h]
    · rw [if_neg h]
  have htype : ∀ l : List Transaction, (if ty = "" then l else filter_by_type l ty)
      = filter_by_type l ty := by
    intro l
    by_cases h : ty = ""
    · rw [if_pos h, filter_by_type, if_pos h]
    · rw [if_neg h]
  rw [apply_filters]
  simp only [hacct, htype]
  by_cases hdate : (truthyOpt fd || truthyOpt td) = true
  · rw [if_pos hdate]
  · rw [if_neg hdate]
    rw [Bool.or_eq_true] at hdate
    push_neg at hdate
    obtain ⟨h1, h2⟩ := hdate
    replace h1 : truthyOpt fd = false := Bool.eq_false_iff.mpr h1
    replace h2 : truthyOpt td = false := Bool.eq_false_iff.mpr h2
    rw [filter_by_date_range, filter_from_falsy parse _ h1, filter_to_falsy parse _ h2]

/-- Counterexample for C7 as stated: an unparseable from-date does NOT
yield an empty result for the date filter — the bound is silently skipped
and the full list comes back. -/
theorem filters_parse_failure_counterexample :
    fromisoformat (replaceZ ("not-a-date")) = none ∧
    filter_by_date_range fromisoformat [wtxn] (some ("not-a-date")) none = [wtxn] ∧
    [wtxn] ≠ ([] : List Transaction) :=
  ⟨rfl, rfl, by simp⟩

/-- C7 (amended): a type filter value that is not a transaction type yields
an empty result for that filter; a from/to date value that is not
ISO-parseable causes that bound to be silently skipped (no filtering on
that bound) rather than an empty result; the filters compose by logical
AND, and none of them raises. -/
theorem filters_parse_failure :
    (∀ (txns : List Transaction) (ty : String), ty ≠ "" →
      parse_transaction_type (lowerS ty) = none →
      filter_by_type txns ty = [])
    ∧
    (∀ (parse : String → Option Nat) (txns : List Transaction)
        (fd : String) (td : Option String), parse (replaceZ fd) = none →
      filter_by_date_range parse txns (some fd) td
        = filter_by_date_range parse txns none td)
    ∧
    (∀ (parse : String → Option Nat) (txns : List Transaction)
        (fd : Option String) (td : String), parse (replaceZ td) = none →
      filter_by_date_range parse txns fd (some td)
        = filter_by_date_range parse txns fd none)
    ∧
    (∀ (parse : String → Option Nat) (txns : List Transaction)
        (a ty : String) (fd td : Option String) (t : Transaction),
      t ∈ apply_filters parse txns (some a) (some ty) fd td ↔
        t ∈ filter_by_account txns a ∧ t ∈ filter_by_type txns ty ∧
        t ∈ filter_by_date_range parse txns fd td) := by
  refine ⟨?_, ?_, ?_, ?_⟩
  · intro txns ty hty hparse
    rw [filter_by_type, if_neg hty, hparse]
  · intro parse txns fd td hparse
    rw [filter_by_date_range, filter_by_date_range]
    congr 1
    by_cases h : fd = ""
    · rw [filter_from, if_pos h]
      rfl
    · rw [filter_from, if_neg h, hparse]
      rfl
  · intro parse txns fd td hparse
    rw [filter_by_date_range, filter_by_date_range]
    by_cases h : td = ""
    · rw [filter_to, if_pos h]
      rfl
    · rw [filter_to, if_neg h, hparse]
      rfl
  · intro parse txns a ty fd td t
    simp only [apply_filters_eq_chain, filter_by_date_range, mem_filter_to,
      mem_filter_from, mem_filter_by_type, mem_filter_by_account]
    tauto

/-- Witness for C7 (amended) at an invalid type-filter string. -/
theorem filters_parse_failure_witness :
    parse_transaction_type (lowerS ("bogus")) = none ∧
    filter_by_type [wtxn] ("bogus") = [] :=
  ⟨by decide, filters_parse_failure.1 [wtxn] ("bogus") (by decide) (by decide)⟩

/-! ### Import accounting lemmas -/

theorem process_rows_go_spec (constructFails : RowData → Bool) (now : Nat) :
    ∀ (rows : List RowData) (i : Nat) (st : TicketServiceState),
      (process_rows_go constructFails now rows i st).1.1
        + (process_rows_go constructFails now rows i st).1.2.1 = rows.length
      ∧ (process_rows_go constructFails now rows i st).1.2.2.2.length
        = (process_rows_go constructFails now rows i st).1.1
      ∧ (process_rows_go constructFails now rows i st).1.2.2.2
        = success_ids constructFails now rows st := by
  intro rows
  induction rows with
  | nil =>
    intro i st
    simp [process_rows_go, success_ids]
  | cons row rows ih =>
    intro i st
    simp only [process_rows_go, success_ids]
    cases hn : normalize_row row with
    | none =>
      obtain ⟨h1, h2, h3⟩ := ih (i + 1) st
      simp only [List.length_cons]
      refine ⟨by omega, h2, h3⟩
    | some td =>
      simp only []
      by_cases hv : validate_ticket_data td = []
      · have hv2 : ¬ validate_ticket_data td ≠ [] := not_ne_iff.mpr hv
        rw [if_neg hv2]
        by_cases ho : constructFails td = true
        · have hcond : ¬ (validate_ticket_data td = [] ∧ constructFails td = false) := by
            intro hc
            rw [ho] at hc
            exact absurd hc.2 (by simp)
          rw [if_pos ho, if_neg hcond]
          obtain ⟨h1, h2, h3⟩ := ih (i + 1) st
          simp only [List.length_cons]
          refine ⟨by omega, h2, h3⟩
        · rw [Bool.not_eq_true] at ho
          have hcond : validate_ticket_data td = [] ∧ constructFails td = false := ⟨hv, ho⟩
          rw [if_neg (by rw [ho]; exact Bool.false_ne_true), if_pos hcond]
          obtain ⟨h1, h2, h3⟩ :=
            ih (i + 1) ((create_ticket st (row_to_create td) now).2)
          simp only [List.length_cons]
          refine ⟨by omega, by simp [h2], by rw [h3]⟩
      · have hcond : ¬ (validate_ticket_data td = [] ∧ constructFails td = false) := by
          intro hc
          exact hv hc.1
        rw [if_pos hv, if_neg hcond]
        obtain ⟨h1, h2, h3⟩ := ih (i + 1) st
        simp only [List.length_cons]
        refine ⟨by omega, h2, h3⟩

/-- C5: for every candidate row list, `_process_rows` reports
total = number of rows, success_count + error_count = total (each row is
classified exactly once), imported_ids of length success_count listing
exactly the created identifiers in creation order; and a failed extraction
reports total 0. -/
theorem process_rows_accounting (constructFails : RowData → Bool) (now : Nat)
    (rows : List RowData) (st : TicketServiceState) :
    ((process_rows constructFails now rows st).1).total = rows.length ∧
    ((process_rows constructFails now rows st).1).success_count
      + ((process_rows constructFails now rows st).1).error_count
      = ((process_rows constructFails now rows st).1).total ∧
    ((process_rows constructFails now rows st).1).imported_ids.length
      = ((process_rows constructFails now rows st).1).success_count ∧
    ((process_rows constructFails now rows st).1).imported_ids
      = success_ids constructFails now rows st ∧
    (∀ e : String,
      ((json_import (Except.error e) constructFails now st).1).total = 0) := by
  obtain ⟨h1, h2, h3⟩ := process_rows_go_spec constructFails now rows 0 st
  exact ⟨rfl, h1, h2, h3, fun e => rfl⟩

/-- C6: an undecodable or unparseable input, a JSON value that is not an
array, or an XML root other than `<tickets>` makes the import return a
result with exactly one row-0 error entry, total 0, success_count 0, empty
imported_ids, and the store untouched — nothing is raised and nothing is
created. -/
theorem json_xml_parse_failure :
    (∀ (e : String) (constructFails : RowData → Bool) (now : Nat)
        (st : TicketServiceState),
      json_import (Except.error e) constructFails now st
        = ({ total := 0, success_count := 0, error_count := 0,
             errors := [⟨0, [e]⟩], imported_ids := [] }, st))
    ∧
    (∀ (constructFails : RowData → Bool) (now : Nat) (st : TicketServiceState),
      json_import (Except.ok JsonVal.notArray) constructFails now st
        = ({ total := 0, success_count := 0, error_count := 0,
             errors := [⟨0, [("JSON must be an array of ticket objects")]⟩],
             imported_ids := [] }, st))
    ∧
    (∀ (e : String) (constructFails : RowData → Bool) (now : Nat)
        (st : TicketServiceState),
      xml_import (Except.error e) constructFails now st
        = ({ total := 0, success_count := 0, error_count := 0,
             errors := [⟨0, [e]⟩], imported_ids := [] }, st))
    ∧
    (∀ (root : XmlNode) (constructFails : RowData → Bool) (now : Nat)
        (st : TicketServiceState), xml_tag root ≠ "tickets" →
      xml_import (Except.ok root) constructFails now st
        = ({ total := 0, success_count := 0, error_count := 0,
             errors := [⟨0, [("XML root element must be tickets")]⟩],
             imported_ids := [] }, st)) := by
  refine ⟨fun e c now st => rfl, fun c now st => rfl, fun e c now st => rfl, ?_⟩
  intro root c now st hroot
  rw [xml_import, if_pos hroot]

/-- Witness for C6 at an XML document with the wrong root element. -/
theorem json_xml_parse_failure_witness :
    xml_tag (XmlNode.elem ("wrong") none []) ≠ "tickets" ∧
    xml_import (Except.ok (XmlNode.elem ("wrong") none []))
        (fun _ => false) 0 wstate
      = ({ total := 0, success_count := 0, error_count := 0,
           errors := [⟨0, [("XML root element must be tickets")]⟩],
           imported_ids := [] }, wstate) :=
  ⟨by decide,
    json_xml_parse_failure.2.2.2 (XmlNode.elem ("wrong") none [])
      (fun _ => false) 0 wstate (by decide)⟩
